import Mathlib

/-!
Verification of the Avature job-scraper core (`helpers.py`, `jobs_helper.py`)
against its natural-language specification.

The Python source is shallowly embedded: dictionaries/JSON values become the
inductive `JVal`, Python truthiness becomes `truthy`, regex searches used by
the source are implemented as explicit scanners over `List Char`, network
responses (an external capability) become function parameters from request
URLs to modelled responses, and each function that performs network calls
additionally returns its trace of `Event`s (`acquire` for
`RateLimiter.acquire()`, `netAttempt` for an HTTP attempt).  `scraped_at`
(a wall-clock timestamp) is omitted from the record model.
-/

namespace Scraper

/-- Model of a Python/JSON value as manipulated by the scraper.
Numbers are modelled as integers (no claim under verification depends on
float-valued fields). -/
inductive JVal where
  | jnull
  | jbool (b : Bool)
  | jnum (n : Int)
  | jstr (s : String)
  | jarr (xs : List JVal)
  | jobj (fields : List (String × JVal))

open JVal

/-- Python truthiness of a value (`bool(v)`). -/
def truthy : JVal → Bool
  | jnull => false
  | jbool b => b
  | jnum n => n != 0
  | jstr s => s != ""
  | jarr xs => !xs.isEmpty
  | jobj fs => !fs.isEmpty

/-- `a or b` in Python: `a` if truthy, else `b`. -/
def pyOr (a b : JVal) : JVal := if truthy a then a else b

/-- `d.get(k)`: first binding of `k`, `None` if absent. -/
def jGet (fs : List (String × JVal)) (k : String) : JVal :=
  match fs.find? (fun p => p.1 == k) with
  | some p => p.2
  | none => jnull

mutual

/-- Python `repr` of a value (string escaping inside quotes not modelled). -/
def pyRepr : JVal → String
  | jnull => "None"
  | jbool true => "True"
  | jbool false => "False"
  | jnum n => toString n
  | jstr s => "'" ++ s ++ "'"
  | jarr xs => "[" ++ String.intercalate ", " (pyReprList xs) ++ "]"
  | jobj fs => "\x7b" ++ String.intercalate ", " (pyReprFields fs) ++ "\x7d"

/-- `repr` of each element of a list value. -/
def pyReprList : List JVal → List String
  | [] => []
  | v :: rest => pyRepr v :: pyReprList rest

/-- `repr` of each `key: value` entry of a dict value. -/
def pyReprFields : List (String × JVal) → List String
  | [] => []
  | (k, v) :: rest => ("'" ++ k ++ "': " ++ pyRepr v) :: pyReprFields rest

end

/-- Python `str(v)`: identity on strings, `repr` otherwise. -/
def pyStr : JVal → String
  | jstr s => s
  | v => pyRepr v

/-- Python iteration `for x in v`: elements of a list, characters of a
string, keys of a dict; `none` models a `TypeError`. -/
def pyIter : JVal → Option (List JVal)
  | jarr xs => some xs
  | jstr s => some (s.data.map (fun c => jstr (String.mk [c])))
  | jobj fs => some (fs.map (fun p => jstr p.1))
  | _ => none

/-- Python `\s` whitespace characters (ASCII portion). -/
def pyIsSpace (c : Char) : Bool :=
  c = ' ' || c = '\t' || c = '\n' || c = '\x0d' || c = '\x0b' || c = '\x0c'

/-- Substring containment (`sub in s` for strings). -/
def listContainsSub (needle : List Char) : List Char → Bool
  | [] => needle.isEmpty
  | l@(_ :: rest) => needle.isPrefixOf l || listContainsSub needle rest

/-- `sub in s` on `String`. -/
def containsSub (s sub : String) : Bool := listContainsSub sub.data s.data

/-- `s.startswith(pre)`. -/
def pyStartsWith (s pre : String) : Bool := pre.data.isPrefixOf s.data

/-- Python `key in v`: key membership for dicts, element equality for lists,
substring test for strings; `none` models a `TypeError`. -/
def pyContains (v : JVal) (key : String) : Option Bool :=
  match v with
  | jobj fs => some (fs.any (fun p => p.1 == key))
  | jarr xs => some (xs.any (fun e => match e with | jstr t => t == key | _ => false))
  | jstr s => some (listContainsSub key.data s.data)
  | _ => none

/-- Everything before the first occurrence of `needle` (`s.split(needle)[0]`);
the whole list when absent. -/
def beforeFirstAux (needle : List Char) : List Char → List Char
  | [] => []
  | l@(c :: rest) =>
      if needle.isPrefixOf l then []
      else c :: beforeFirstAux needle rest

/-- `s.split(sub)[0]`. -/
def beforeFirst (s sub : String) : String := String.mk (beforeFirstAux sub.data s.data)

/-- `s.rsplit("/", 1)[0]`: everything before the last `/`; the whole string
when `/` does not occur. -/
def beforeLastSlash (s : String) : String :=
  match (s.data.reverse.dropWhile (fun c => c ≠ '/')) with
  | [] => s
  | _ :: rest => String.mk rest.reverse

/-- Replace every (non-overlapping, leftmost) occurrence of `needle`.
Recursion is on a fuel bound; each step consumes at least one character, so
with fuel initialized to the input length the fuel-0 branch is only reached
on the empty input. -/
def replaceSubAux (needle repl : List Char) : Nat → List Char → List Char
  | _, [] => []
  | 0, l => l
  | fuel + 1, c :: rest =>
      if needle ≠ [] ∧ needle.isPrefixOf (c :: rest) then
        repl ++ replaceSubAux needle repl fuel ((c :: rest).drop needle.length)
      else c :: replaceSubAux needle repl fuel rest

/-- `s.replace(sub, repl)` / `re.sub` with a literal pattern. -/
def replaceSub (s sub repl : String) : String :=
  String.mk (replaceSubAux sub.data repl.data s.data.length s.data)

/-- `re.sub(param + "=\\d+", param + "=" + value, s)`: replace each
occurrence of the literal `param=` followed by a maximal nonempty digit run. -/
def subParamDigitsAux (pat repl : List Char) : Nat → List Char → List Char
  | _, [] => []
  | 0, l => l
  | fuel + 1, c :: rest =>
      if pat ≠ [] ∧ pat.isPrefixOf (c :: rest) ∧
          (((c :: rest).drop pat.length).takeWhile Char.isDigit) ≠ [] then
        repl ++ subParamDigitsAux pat repl fuel
          (((c :: rest).drop pat.length).dropWhile Char.isDigit)
      else c :: subParamDigitsAux pat repl fuel rest

/-- `re.sub(f"{param}=\\d+", f"{param}={value}", s)` as used to rewrite
pagination query parameters. -/
def subParamDigits (s param value : String) : String :=
  String.mk (subParamDigitsAux (param.data ++ ['=']) (param.data ++ ['='] ++ value.data)
    s.data.length s.data)

/-- Collapse each whitespace run to a single space (`re.sub(r"\s+", " ", s)`).
Fuel-bounded as in `replaceSubAux`. -/
def collapseWsAux : Nat → List Char → List Char
  | _, [] => []
  | 0, l => l
  | fuel + 1, c :: rest =>
      if pyIsSpace c then ' ' :: collapseWsAux fuel (rest.dropWhile pyIsSpace)
      else c :: collapseWsAux fuel rest

/-- `s.strip()` (whitespace strip at both ends). -/
def stripWs (l : List Char) : List Char :=
  ((l.dropWhile pyIsSpace).reverse.dropWhile pyIsSpace).reverse

/-- `clean_text` from `jobs_helper.py`: collapse whitespace and strip. -/
def clean_text (text : String) : String :=
  if text = "" then ""
  else String.mk (stripWs (collapseWsAux text.data.length text.data))

/-- `s.lower()` (ASCII). -/
def lowerStr (s : String) : String := String.mk (s.data.map Char.toLower)

/-- Case-insensitive substring containment (`re.search(pat, s, re.I)` with a
literal pattern). -/
def containsSubCI (s sub : String) : Bool := containsSub (lowerStr s) (lowerStr sub)

/-- The `scheme` and remainder of a URL split at the first `://`
(`none` when absent). -/
def splitScheme (s : String) : Option (String × String) :=
  if containsSub s "://" then
    some (beforeFirst s "://", String.mk ((s.data.drop (beforeFirst s "://").length).drop 3))
  else none

/-- Path of a URL up to and excluding the last `/` (empty when `/` absent). -/
def dirnamePath (path : String) : String :=
  match (path.data.reverse.dropWhile (fun c => c ≠ '/')) with
  | [] => ""
  | _ :: rest => String.mk rest.reverse

/-- `urllib.parse.urljoin(base, url)` restricted to the http(s) cases the
scraper exercises: absolute URLs are kept, `//`-prefixed URLs take the base's
scheme, `/`-prefixed URLs replace the base's path, and relative URLs replace
the base's last path segment.  Dot-segment normalization and non-hierarchical
schemes (e.g. `mailto:`) are not modelled. -/
def urljoin (base url : String) : String :=
  if url = "" then base
  else
    match splitScheme url with
    | some _ => url
    | none =>
      match splitScheme base with
      | some (scheme, rest) =>
          let netloc := beforeFirst rest "/"
          let path :=
            if containsSub rest "/" then String.mk (rest.data.drop netloc.length) else ""
          if pyStartsWith url "//" then scheme ++ ":" ++ url
          else if pyStartsWith url "/" then scheme ++ "://" ++ netloc ++ url
          else scheme ++ "://" ++ netloc ++ dirnamePath path ++ "/" ++ url
      | none =>
          if pyStartsWith url "/" then url
          else dirnamePath base ++ "/" ++ url

/-- One regex match attempt at the head of the input: `some (capture,
consumed)` when the pattern matches here, consuming `consumed ≥ 1` chars. -/
abbrev Matcher := List Char → Option (String × Nat)

/-- All captures of a pattern, scanning left to right, resuming after each
match (`re.findall`).  Fuel-bounded as in `replaceSubAux`. -/
def scanAllAux (m : Matcher) : Nat → List Char → List String
  | _, [] => []
  | 0, _ => []
  | fuel + 1, c :: rest =>
      match m (c :: rest) with
      | some (cap, k) => cap :: scanAllAux m fuel ((c :: rest).drop (max k 1))
      | none => scanAllAux m fuel rest

/-- `re.findall` over a character list. -/
def scanAll (m : Matcher) (l : List Char) : List String := scanAllAux m l.length l

/-- First capture of a pattern, scanning left to right (`re.search`). -/
def scanFirst (m : Matcher) : List Char → Option String
  | [] => none
  | c :: rest =>
      match m (c :: rest) with
      | some (cap, _) => some cap
      | none => scanFirst m rest

/-- Matcher for `/(\d{4,})`: a slash followed by at least four digits;
captures the maximal digit run. -/
def matchSlashDigits4 : Matcher
  | '/' :: t =>
      let ds := t.takeWhile Char.isDigit
      if ds.length ≥ 4 then some (String.mk ds, 1 + ds.length) else none
  | _ => none

/-- Matcher for a literal key followed by `(\d+)` (e.g. `jobId=(\d+)`);
captures the maximal digit run. -/
def matchKeyDigits (key : List Char) : Matcher := fun l =>
  if key.isPrefixOf l then
    let ds := (l.drop key.length).takeWhile Char.isDigit
    if ds ≠ [] then some (String.mk ds, key.length + ds.length) else none
  else none

/-- `extract_job_id_from_url` from `jobs_helper.py`: try the patterns
`/(\d{4,})`, `jobId=(\d+)`, `id=(\d+)` in order and return the first
capture. -/
def extract_job_id_from_url (url : String) : Option String :=
  if url = "" then none
  else
    match scanFirst matchSlashDigits4 url.data with
    | some d => some d
    | none =>
      match scanFirst (matchKeyDigits "jobId=".data) url.data with
      | some d => some d
      | none =>
        match scanFirst (matchKeyDigits "id=".data) url.data with
        | some d => some d
        | none => none

/-- Whitespace-or-colon class `[\s:]` of the location pattern. -/
def isWsColon (c : Char) : Bool := pyIsSpace c || c = ':'

/-- The capture‐terminating class `[|;\n]` of the location pattern. -/
def isLocDelim (c : Char) : Bool := c = '|' || c = ';' || c = '\n'

/-- Case-insensitive literal prefix test. -/
def kwPrefixCI (kw : String) (l : List Char) : Bool :=
  kw.data.isPrefixOf (l.map Char.toLower)

/-- Length of the alternation `(?:Location|City|Office)` matching
case-insensitively at the head of the input (the branches start with
distinct letters, so at most one can match). -/
def locKeywordLen (l : List Char) : Option Nat :=
  if kwPrefixCI "location" l then some 8
  else if kwPrefixCI "city" l then some 4
  else if kwPrefixCI "office" l then some 6
  else none

/-- Matcher for `(?:Location|City|Office)[\s:]+([^|;\n]+)` (case-insensitive)
at the head of the input, including the one step of backtracking the greedy
`[\s:]+` performs when the following capture would otherwise be empty. -/
def matchLocationLabel : Matcher := fun l =>
  match locKeywordLen l with
  | none => none
  | some klen =>
      let after := l.drop klen
      let run := after.takeWhile isWsColon
      if run.isEmpty then none
      else
        let rest := after.drop run.length
        let cap := rest.takeWhile (fun c => !isLocDelim c)
        if !cap.isEmpty then some (String.mk cap, klen + run.length + cap.length)
        else if run.length ≥ 2 then some (String.mk [run.getLastD ' '], klen + run.length)
        else none

/-- Canonical normalized job record (`job_data` dict of `jobs_helper.py`).
`job_title` and `job_description` hold the raw Python value the source
stores; `scraped_at` (wall-clock timestamp) is omitted. -/
structure JobData where
  tenant : String
  job_title : JVal
  job_url : Option String
  job_id : Option String
  location : Option String
  date_posted : Option String
  job_description : JVal

/-- A listing element as seen through the HTML-parsing capability:
`anchor` is the text and `href` of `job_elem.find("a", href=True)`,
`text` is `job_elem.get_text()`, and `cityString` is the result of
`job_elem.find(string=re.compile(r"\b(New York|London|...)\b", re.I))`. -/
structure JobElem where
  anchor : Option (String × String)
  text : String
  cityString : Option String

/-- `parse_job_from_listing` from `jobs_helper.py`. -/
def parse_job_from_listing (job_elem : JobElem) (base_url tenant : String) : Option JobData :=
  let tjv : JVal × Option String × Option String :=
    match job_elem.anchor with
    | some (txt, href) =>
        let u := urljoin base_url href
        (jstr (clean_text txt), some u, extract_job_id_from_url u)
    | none => (jnull, none, none)
  let location : Option String :=
    match scanFirst matchLocationLabel job_elem.text.data with
    | some cap => some (clean_text cap)
    | none =>
        match job_elem.cityString with
        | some s => some (clean_text s)
        | none => none
  if truthy tjv.1 then
    some { tenant := tenant, job_title := tjv.1, job_url := tjv.2.1, job_id := tjv.2.2,
           location := location, date_posted := none, job_description := jnull }
  else none

/-- The slugified title used in synthesized job URLs: spaces become hyphens,
characters outside `[a-zA-Z0-9-]` are removed, truncated to 50 characters. -/
def slugify50 (s : String) : String :=
  String.mk (((s.data.map (fun c => if c = ' ' then '-' else c)).filter
    (fun c => c.isAlpha || c.isDigit || c = '-')).take 50)

/-- The identifier alias chain of `parse_job_from_json`
(`id`/`jobId`/`Id`/`requisitionId`/`positionId`, first truthy). -/
def idChain (f : List (String × JVal)) : JVal :=
  pyOr (jGet f "id") (pyOr (jGet f "jobId") (pyOr (jGet f "Id")
    (pyOr (jGet f "requisitionId") (jGet f "positionId"))))

/-- The title alias chain of `parse_job_from_json`
(`title`/`jobTitle`/`positionTitle`/`name`, first truthy). -/
def titleChain (f : List (String × JVal)) : JVal :=
  pyOr (jGet f "title") (pyOr (jGet f "jobTitle")
    (pyOr (jGet f "positionTitle") (jGet f "name")))

/-- The "Build job URL" block of `parse_job_from_json`: skipped (no URL)
without a truthy identifier; otherwise slugify the title (`.replace` on a
truthy non-string title raises — modelled as `none`, the swallowed
exception), then take the first truthy of the five URL candidates
(`.startswith` on a truthy non-string candidate raises likewise). -/
def jsonJobUrlStep (f : List (String × JVal)) (base_url : String) : Option (Option String) :=
  if truthy (idChain f) then
    (if truthy (titleChain f) then
        match titleChain f with
        | jstr s => some (slugify50 s)
        | _ => none
      else some "job").bind (fun title_slug =>
      match [jGet f "url", jGet f "jobUrl", jGet f "applyUrl",
             jstr (base_url ++ "/JobDetail/" ++ title_slug ++ "/" ++ pyStr (idChain f)),
             jstr (base_url ++ "/jobs/JobDetail/" ++ pyStr (idChain f))].find? truthy with
      | some (jstr u) =>
          some (some (if pyStartsWith u "http" then u else urljoin base_url u))
      | some _ => none
      | none => some none)
  else some none

/-- `parse_job_from_json` from `jobs_helper.py`.  Exceptions swallowed by the
function's `try/except` (attribute errors from `.replace`/`.startswith` on
non-string values, `.get` on a non-dict) are modelled by returning `none`. -/
def parse_job_from_json (job_obj : JVal) (tenant base_url : String) : Option JobData :=
  match job_obj with
  | jobj f =>
      let job_id : Option String :=
        if truthy (idChain f) then some (pyStr (idChain f)) else none
      let locv := pyOr (jGet f "location") (pyOr (jGet f "primaryLocation") (jGet f "city"))
      let location : Option String :=
        match locv with
        | jobj lf =>
            let parts := (["city", "state", "country", "region"].filter
              (fun k => truthy (jGet lf k))).map (fun k => pyStr (jGet lf k))
            if parts.isEmpty then none else some (String.intercalate ", " parts)
        | _ => if truthy locv then some (pyStr locv) else none
      let descv := pyOr (jGet f "description") (pyOr (jGet f "summary") (jGet f "jobDescription"))
      let datev := pyOr (jGet f "postedDate") (pyOr (jGet f "datePosted") (jGet f "createdDate"))
      let date_posted : Option String := if truthy datev then some (pyStr datev) else none
      match jsonJobUrlStep f base_url with
      | none => none
      | some job_url =>
          if truthy (titleChain f) then
            some { tenant := tenant, job_title := titleChain f, job_url := job_url,
                   job_id := job_id, location := location, date_posted := date_posted,
                   job_description := descv }
          else none
  | _ => none

/-- Outcome of one `requests.get` attempt inside `fetch_page`:
success (any status), `requests.Timeout`, or another `RequestException`. -/
inductive AttemptOutcome where
  | success (status : Nat) (text : String) (finalUrl : String)
  | timeout
  | reqError
deriving DecidableEq

/-- Observable events of the embedded functions: a `RateLimiter.acquire()`
call or a network attempt against a URL. -/
inductive Event where
  | acquire
  | netAttempt (url : String)
deriving DecidableEq

/-- The retry loop of `fetch_page`: up to `k` further attempts, the next one
being attempt number `i`; retries only on timeout, aborts on any other
request exception. -/
def fetchAttemptLoop (url : String) (attempts : Nat → AttemptOutcome) :
    Nat → Nat → List Event × Option (Nat × String × String)
  | 0, _ => ([], none)
  | k + 1, i =>
      match attempts i with
      | .success st tx fu => ([Event.netAttempt url], some (st, tx, fu))
      | .timeout =>
          let r := fetchAttemptLoop url attempts k (i + 1)
          (Event.netAttempt url :: r.1, r.2)
      | .reqError => ([Event.netAttempt url], none)

/-- `fetch_page` from `helpers.py`: one `acquire()`, then at most
`max_retries` attempts; returns `(status_code, text, final_url)` of the
first non-exceptional response, `none` when every attempt failed. -/
def fetch_page (url : String) (attempts : Nat → AttemptOutcome) (max_retries : Nat) :
    List Event × Option (Nat × String × String) :=
  let r := fetchAttemptLoop url attempts max_retries 0
  (Event.acquire :: r.1, r.2)

/-- A `<form>` element as seen through the HTML-parsing capability. -/
structure FormTag where
  action : Option String

/-- The parsed document capability: `soup.find_all("form", ...)` needs the
document's forms. -/
structure Soup where
  forms : List FormTag

/-- Matcher for `/PublicReports/(\d+)/json`. -/
def matchPublicReportsId : Matcher := fun l =>
  if "/PublicReports/".data.isPrefixOf l then
    let after := l.drop "/PublicReports/".data.length
    let ds := after.takeWhile Char.isDigit
    if !ds.isEmpty && "/json".data.isPrefixOf (after.drop ds.length) then
      some (String.mk ds, "/PublicReports/".data.length + ds.length + "/json".data.length)
    else none
  else none

/-- The config dict produced by `detect_public_reports_endpoint`. -/
structure ReportConfig where
  type : String
  endpoint : String
  pagination_param : String
  page_size_param : String
  default_page_size : Nat
  confidence : String
  test_status : String

/-- `detect_public_reports_endpoint` from `helpers.py`.  `netGet url` models
the test `requests.get`: `none` for a raised exception, otherwise the status
code and the result of `.json()` (`none` for a JSON parse error). -/
def detect_public_reports_endpoint (html tenant : String)
    (netGet : String → Option (Nat × Option JVal)) : Option ReportConfig × List Event :=
  match scanFirst matchPublicReportsId html.data with
  | none => (none, [])
  | some report_id =>
      let endpoint_url := "https://" ++ tenant ++ "/PublicReports/" ++ report_id ++ "/json"
      let test_url := endpoint_url ++ "?offset=0&recordsPerPage=1"
      let events := [Event.acquire, Event.netAttempt test_url]
      match netGet test_url with
      | none => (none, events)
      | some (status, body) =>
          if status = 200 then
            match body with
            | none => (none, events)
            | some data =>
                let cond : Option Bool :=
                  (pyContains data "rows").bind (fun r =>
                    if r then some true else pyContains data "data")
                match cond with
                | some true =>
                    (some { type := "public_report_json", endpoint := endpoint_url,
                            pagination_param := "offset", page_size_param := "recordsPerPage",
                            default_page_size := 1000, confidence := "high",
                            test_status := "success" }, events)
                | _ => (none, events)
          else (none, events)

/-- The config dict produced by `detect_search_jobs_endpoint`. -/
structure SearchConfig where
  type : String
  endpoint : String
  pagination_param : String
  page_size_param : String
  default_page_size : Nat
  confidence : String
  method : String

/-- The path-guessing loop of `detect_search_jobs_endpoint`: one rate-limited
HEAD request per conventional path, accepting the first that returns 200.
`netHead url = none` models a raised exception (silently passed). -/
def searchJobsPathLoop (tenant : String) (netHead : String → Option Nat) :
    List String → Option SearchConfig × List Event
  | [] => (none, [])
  | path :: rest =>
      let test_url := "https://" ++ tenant ++ path
      let ev := [Event.acquire, Event.netAttempt test_url]
      match netHead test_url with
      | some 200 =>
          (some { type := "search_jobs_html", endpoint := test_url,
                  pagination_param := "jobOffset", page_size_param := "jobRecords",
                  default_page_size := 50, confidence := "medium",
                  method := "path_guessing" }, ev)
      | _ =>
          let r := searchJobsPathLoop tenant netHead rest
          (r.1, ev ++ r.2)

/-- `detect_search_jobs_endpoint` from `helpers.py`: form detection first
(no test call), then path guessing when the keyword appears in the markup. -/
def detect_search_jobs_endpoint (html : String) (soup : Soup) (tenant : String)
    (netHead : String → Option Nat) : Option SearchConfig × List Event :=
  let forms := soup.forms.filter (fun f =>
    match f.action with
    | some a => containsSubCI a "SearchJobs"
    | none => false)
  match forms with
  | f :: _ =>
      let action := f.action.getD ""
      (some { type := "search_jobs_html",
              endpoint := urljoin ("https://" ++ tenant) action,
              pagination_param := "jobOffset", page_size_param := "jobRecords",
              default_page_size := 50, confidence := "medium",
              method := "form_detection" }, [])
  | [] =>
      if containsSub html "SearchJobs" then
        searchJobsPathLoop tenant netHead
          ["/careers/SearchJobs/", "/careers/SearchJobs", "/SearchJobs/"]
      else (none, [])

/-- Matcher for `jobId[=:](\d+)`. -/
def matchJobIdKV : Matcher := fun l =>
  if "jobId".data.isPrefixOf l then
    match l.drop "jobId".data.length with
    | d :: ds =>
        if d = '=' || d = ':' then
          let digits := ds.takeWhile Char.isDigit
          if !digits.isEmpty then
            some (String.mk digits, "jobId".data.length + 1 + digits.length)
          else none
        else none
    | [] => none
  else none

/-- Matcher for `data-job-id["\s]*=["\s]*(\d+)`. -/
def matchDataJobId : Matcher := fun l =>
  if "data-job-id".data.isPrefixOf l then
    let after := l.drop "data-job-id".data.length
    let run1 := after.takeWhile (fun c => c = '"' || pyIsSpace c)
    match after.drop run1.length with
    | '=' :: rest2 =>
        let run2 := rest2.takeWhile (fun c => c = '"' || pyIsSpace c)
        let digits := (rest2.drop run2.length).takeWhile Char.isDigit
        if !digits.isEmpty then
          some (String.mk digits,
            "data-job-id".data.length + run1.length + 1 + run2.length + digits.length)
        else none
    | _ => none
  else none

/-- Matcher for `/JobDetail/[^/]+/(\d+)`. -/
def matchJobDetailPath : Matcher := fun l =>
  if "/JobDetail/".data.isPrefixOf l then
    let after := l.drop "/JobDetail/".data.length
    let seg := after.takeWhile (fun c => c ≠ '/')
    if seg.isEmpty then none
    else
      match after.drop seg.length with
      | '/' :: rest2 =>
          let digits := rest2.takeWhile Char.isDigit
          if !digits.isEmpty then
            some (String.mk digits, "/JobDetail/".data.length + seg.length + 1 + digits.length)
          else none
      | _ => none
  else none

/-- The config dict produced by `detect_job_ids_in_html`. -/
structure FallbackConfig where
  type : String
  endpoint : String
  job_count_estimate : Nat
  confidence : String
  sample_job_ids : List String
  note : String

/-- `detect_job_ids_in_html` from `helpers.py`: union the captures of the
three identifier patterns; non-empty yields a Partial config with up to five
sample identifiers.  (CPython iterates its `set` in hash order; the model
fixes first-occurrence order, which claims under verification do not depend
on.) -/
def detect_job_ids_in_html (html : String) (soup : Soup) (url : String) :
    Option FallbackConfig :=
  let all_job_ids := (scanAll matchJobIdKV html.data ++ scanAll matchDataJobId html.data ++
    scanAll matchJobDetailPath html.data).dedup
  if all_job_ids.isEmpty then none
  else some { type := "html_scrape", endpoint := url,
              job_count_estimate := all_job_ids.length, confidence := "low",
              sample_job_ids := all_job_ids.take 5,
              note := "Requires detail page crawling" }

/-- The detection-result dict of `detect_endpoint_for_url`; keys that a
probe's config may add are `Option`-valued and start absent. -/
structure DetectionResult where
  tenant : String
  career_url : String
  is_career_page : Bool
  status : String
  type : Option String
  endpoint : Option String
  confidence : Option String
  pagination_param : Option String
  page_size_param : Option String
  default_page_size : Option Nat
  test_status : Option String
  method : Option String
  job_count_estimate : Option Nat
  sample_job_ids : Option (List String)
  note : Option String
  error : Option String

/-- The initial result dict of `detect_endpoint_for_url`. -/
def baseResult (tenant url : String) (is_career_page : Bool) : DetectionResult :=
  { tenant := tenant, career_url := url, is_career_page := is_career_page,
    status := "failed", type := none, endpoint := none, confidence := none,
    pagination_param := none, page_size_param := none, default_page_size := none,
    test_status := none, method := none, job_count_estimate := none,
    sample_job_ids := none, note := none, error := none }

/-- `result.update(config)` for a ReportProbe config. -/
def applyReportConfig (r : DetectionResult) (c : ReportConfig) : DetectionResult :=
  { r with
    type := some c.type
    endpoint := some c.endpoint
    pagination_param := some c.pagination_param
    page_size_param := some c.page_size_param
    default_page_size := some c.default_page_size
    confidence := some c.confidence
    test_status := some c.test_status }

/-- `result.update(config)` for a SearchFormProbe config. -/
def applySearchConfig (r : DetectionResult) (c : SearchConfig) : DetectionResult :=
  { r with
    type := some c.type
    endpoint := some c.endpoint
    pagination_param := some c.pagination_param
    page_size_param := some c.page_size_param
    default_page_size := some c.default_page_size
    confidence := some c.confidence
    method := some c.method }

/-- `result.update(config)` for a FallbackScrapeProbe config. -/
def applyFallbackConfig (r : DetectionResult) (c : FallbackConfig) : DetectionResult :=
  { r with
    type := some c.type
    endpoint := some c.endpoint
    job_count_estimate := some c.job_count_estimate
    confidence := some c.confidence
    sample_job_ids := some c.sample_job_ids
    note := some c.note }

/-- `detect_endpoint_for_url` from `helpers.py`: fetch the career page
(short-circuiting on fetch failure or non-200), then run the three probes in
priority order, returning at the first success. -/
def detect_endpoint_for_url (tenant url : String) (is_career_page : Bool)
    (attempts : Nat → AttemptOutcome) (parseHtml : String → Soup)
    (netGet : String → Option (Nat × Option JVal)) (netHead : String → Option Nat) :
    DetectionResult × List Event :=
  let result := baseResult tenant url is_career_page
  let fp := fetch_page url attempts 2
  match fp.2 with
  | none => ({ result with error := some "fetch_failed" }, fp.1)
  | some (status_code, html, _final_url) =>
      if status_code ≠ 200 then
        ({ result with error := some ("http_" ++ toString status_code) }, fp.1)
      else
        let soup := parseHtml html
        let pr := detect_public_reports_endpoint html tenant netGet
        match pr.1 with
        | some config =>
            ({ applyReportConfig result config with status := "success" }, fp.1 ++ pr.2)
        | none =>
            let sr := detect_search_jobs_endpoint html soup tenant netHead
            match sr.1 with
            | some config =>
                ({ applySearchConfig result config with status := "success" },
                  fp.1 ++ pr.2 ++ sr.2)
            | none =>
                match detect_job_ids_in_html html soup url with
                | some config =>
                    ({ applyFallbackConfig result config with status := "partial" },
                      fp.1 ++ pr.2 ++ sr.2)
                | none =>
                    ({ result with error := some "no_pattern_detected" },
                      fp.1 ++ pr.2 ++ sr.2)

/-- `MAX_PAGES_PER_SITE` from `jobs_helper.py`. -/
def MAX_PAGES_PER_SITE : Nat := 20

/-- Accumulator of the per-page item loop of `scrape_via_json_api`:
`seen` job ids, the page's appended records, and the page's duplicate and
new-record counters. -/
structure PageAcc where
  seen : List String
  page_jobs : List JobData
  dups : Nat
  newJobs : Nat

/-- One iteration of the item loop of `scrape_via_json_api`: parse the raw
object; skip (counting a duplicate) when its truthy id was already seen;
otherwise record the id (when truthy) and append the record. -/
def processItem (tenant base_url : String) (acc : PageAcc) (job_obj : JVal) : PageAcc :=
  match parse_job_from_json job_obj tenant base_url with
  | none => acc
  | some job_data =>
      match job_data.job_id with
      | some i =>
          if i ≠ "" ∧ i ∈ acc.seen then { acc with dups := acc.dups + 1 }
          else if i ≠ "" then
            { acc with
              seen := i :: acc.seen
              page_jobs := acc.page_jobs ++ [job_data]
              newJobs := acc.newJobs + 1 }
          else
            { acc with
              page_jobs := acc.page_jobs ++ [job_data]
              newJobs := acc.newJobs + 1 }
      | none =>
          { acc with
            page_jobs := acc.page_jobs ++ [job_data]
            newJobs := acc.newJobs + 1 }

/-- The item loop of `scrape_via_json_api` over one page's raw objects. -/
def processItems (tenant base_url : String) (items : List JVal) (acc : PageAcc) : PageAcc :=
  items.foldl (processItem tenant base_url) acc

/-- `jobs_list` extraction in `scrape_via_json_api`: the data itself when a
list; the first truthy among the key aliases (defaulting to `[]`) when a
dict; otherwise the initial `[]`. -/
def jobsListVal (data : JVal) : JVal :=
  match data with
  | jarr xs => jarr xs
  | jobj fs => pyOr (jGet fs "jobs") (pyOr (jGet fs "items") (pyOr (jGet fs "results")
      (pyOr (jGet fs "data") (pyOr (jGet fs "jobList") (jarr [])))))
  | _ => jarr []

/-- Page-URL construction in `scrape_via_json_api`: `str.format` on
`{offset}`/`{limit}` placeholders when present, else `re.sub` rewriting of
the two pagination query parameters. -/
def jsonPageUrl (api_url_template pagination_param page_size_param : String)
    (offset page_size : Nat) : String :=
  if containsSub api_url_template "\x7boffset\x7d" then
    replaceSub (replaceSub api_url_template "\x7boffset\x7d" (toString offset))
      "\x7blimit\x7d" (toString page_size)
  else
    subParamDigits (subParamDigits api_url_template pagination_param (toString offset))
      page_size_param (toString page_size)

/-- `base_url` derivation inside the `scrape_via_json_api` page loop. -/
def jsonBaseUrl (api_url : String) : String :=
  if containsSub api_url "PublicReports" then beforeFirst api_url "PublicReports"
  else beforeLastSlash api_url

/-- The `while page < MAX_PAGES_PER_SITE` loop of `scrape_via_json_api`.
`net url = none` models an exception from `requests.get`/`.json()` is modelled
by `none` in the status or body position; the float comparison
`page_duplicates / len(jobs_list) > 0.8` is modelled exactly as
`5 * dups > 4 * len`. -/
def scrapeJsonLoop (tenant api_url_template pagination_param page_size_param : String)
    (page_size : Nat) (net : String → Option (Nat × Option JVal)) :
    (fuel : Nat) → (page : Nat) → (consecutive_empty : Nat) → (seen : List String) →
    (jobs : List JobData) → (events : List Event) → List JobData × List Event
  | 0, _, _, _, jobs, events => (jobs, events)
  | fuel + 1, page, consecutive_empty, seen, jobs, events =>
  if page < MAX_PAGES_PER_SITE then
    let offset := page * page_size
    let api_url := jsonPageUrl api_url_template pagination_param page_size_param offset page_size
    let events' := events ++ [Event.netAttempt api_url]
    match net api_url with
    | none => (jobs, events')
    | some (status, body) =>
        if status ≠ 200 then (jobs, events')
        else
          match body with
          | none => (jobs, events')
          | some data =>
              match pyIter (jobsListVal data) with
              | none => (jobs, events')
              | some jobs_list =>
                  let base_url := jsonBaseUrl api_url
                  let acc := processItems tenant base_url jobs_list
                    { seen := seen, page_jobs := [], dups := 0, newJobs := 0 }
                  if 0 < jobs_list.length ∧ 5 * acc.dups > 4 * jobs_list.length then
                    (jobs, events')
                  else if acc.newJobs = 0 then
                    if consecutive_empty + 1 ≥ 2 then (jobs, events')
                    else
                      scrapeJsonLoop tenant api_url_template pagination_param page_size_param
                        page_size net fuel (page + 1) (consecutive_empty + 1) acc.seen
                        (jobs ++ acc.page_jobs) events'
                  else
                    scrapeJsonLoop tenant api_url_template pagination_param page_size_param
                      page_size net fuel (page + 1) 0 acc.seen (jobs ++ acc.page_jobs) events'
  else (jobs, events)

/-- `scrape_via_json_api` from `jobs_helper.py`.  The loop's structural fuel
starts at `MAX_PAGES_PER_SITE - page`, so the fuel-0 case coincides with the
`while` guard becoming false and never cuts a run short. -/
def scrape_via_json_api (tenant api_url_template pagination_param page_size_param : String)
    (page_size : Nat) (net : String → Option (Nat × Option JVal)) :
    List JobData × List Event :=
  scrapeJsonLoop tenant api_url_template pagination_param page_size_param page_size net
    MAX_PAGES_PER_SITE 0 0 [] [] []

/-- Accumulator of the per-page element loop of `scrape_via_html_parsing`. -/
structure ListingAcc where
  seen : List String
  page_jobs : List JobData
  dups : Nat

/-- One iteration of the element loop of `scrape_via_html_parsing`. -/
def processListingItem (endpoint tenant : String) (acc : ListingAcc) (job_elem : JobElem) :
    ListingAcc :=
  match parse_job_from_listing job_elem endpoint tenant with
  | none => acc
  | some job_data =>
      match job_data.job_id with
      | some i =>
          if i ≠ "" ∧ i ∈ acc.seen then { acc with dups := acc.dups + 1 }
          else if i ≠ "" then
            { acc with
              seen := i :: acc.seen
              page_jobs := acc.page_jobs ++ [job_data] }
          else { acc with page_jobs := acc.page_jobs ++ [job_data] }
      | none => { acc with page_jobs := acc.page_jobs ++ [job_data] }

/-- The element loop of `scrape_via_html_parsing` over one page's elements. -/
def processListingItems (endpoint tenant : String) (elems : List JobElem) (acc : ListingAcc) :
    ListingAcc :=
  elems.foldl (processListingItem endpoint tenant) acc

/-- Page-URL construction in `scrape_via_html_parsing`. -/
def htmlPageUrl (endpoint pagination_param page_size_param : String)
    (offset page_size : Nat) : String :=
  let separator := if containsSub endpoint "?" then "&" else "?"
  endpoint ++ separator ++ pagination_param ++ "=" ++ toString offset ++ "&" ++
    page_size_param ++ "=" ++ toString page_size

/-- The `while page < MAX_PAGES_PER_SITE` loop of `scrape_via_html_parsing`.
`net url` is the composition of `requests.get`, `BeautifulSoup` and
`find_job_elements` (the latter two are external parsing capabilities);
`none` models a raised exception. -/
def scrapeHtmlLoop (tenant endpoint pagination_param page_size_param : String)
    (page_size : Nat) (net : String → Option (List JobElem)) :
    (fuel : Nat) → (page : Nat) → (consecutive_empty : Nat) → (seen : List String) →
    (jobs : List JobData) → (events : List Event) → List JobData × List Event
  | 0, _, _, _, jobs, events => (jobs, events)
  | fuel + 1, page, consecutive_empty, seen, jobs, events =>
  if page < MAX_PAGES_PER_SITE then
    let url := htmlPageUrl endpoint pagination_param page_size_param (page * page_size) page_size
    let events' := events ++ [Event.netAttempt url]
    match net url with
    | none => (jobs, events')
    | some job_elements =>
        if job_elements.isEmpty then
          if consecutive_empty + 1 ≥ 2 then (jobs, events')
          else
            scrapeHtmlLoop tenant endpoint pagination_param page_size_param page_size net
              fuel (page + 1) (consecutive_empty + 1) seen jobs events'
        else
          let acc := processListingItems endpoint tenant job_elements
            { seen := seen, page_jobs := [], dups := 0 }
          if 0 < job_elements.length ∧ 5 * acc.dups > 4 * job_elements.length then
            (jobs, events')
          else if acc.page_jobs.isEmpty then
            if consecutive_empty + 1 ≥ 2 then (jobs, events')
            else
              scrapeHtmlLoop tenant endpoint pagination_param page_size_param page_size net
                fuel (page + 1) (consecutive_empty + 1) acc.seen (jobs ++ acc.page_jobs) events'
          else
            scrapeHtmlLoop tenant endpoint pagination_param page_size_param page_size net
              fuel (page + 1) 0 acc.seen (jobs ++ acc.page_jobs) events'
  else (jobs, events)

/-- `scrape_via_html_parsing` from `jobs_helper.py`.  Fuel as in
`scrape_via_json_api`. -/
def scrape_via_html_parsing (tenant endpoint pagination_param page_size_param : String)
    (page_size : Nat) (net : String → Option (List JobElem)) :
    List JobData × List Event :=
  scrapeHtmlLoop tenant endpoint pagination_param page_size_param page_size net
    MAX_PAGES_PER_SITE 0 0 [] [] []

/-- The candidate-URL loop of `try_json_api`: accept the first URL whose
response is 200 and parses as JSON to a dict with a known records key or a
non-empty list; exceptions and parse errors continue to the next one. -/
def tryJsonApiLoop (net : String → Option (Nat × Option JVal)) :
    List String → Option (String × JVal) × List Event
  | [] => (none, [])
  | api_url :: rest =>
      let cont := tryJsonApiLoop net rest
      let contR : Option (String × JVal) × List Event :=
        (cont.1, Event.netAttempt api_url :: cont.2)
      match net api_url with
      | none => contR
      | some (status, body) =>
          if status = 200 then
            match body with
            | none => contR
            | some data =>
                match data with
                | jobj fs =>
                    if fs.any (fun p => p.1 == "jobs" || p.1 == "items" || p.1 == "results") then
                      (some (api_url, jobj fs), [Event.netAttempt api_url])
                    else contR
                | jarr xs =>
                    if 0 < xs.length then (some (api_url, jarr xs), [Event.netAttempt api_url])
                    else contR
                | _ => contR
          else contR

/-- `try_json_api` from `jobs_helper.py`. -/
def try_json_api (tenant endpoint : String) (offset limit : Nat)
    (net : String → Option (Nat × Option JVal)) :
    Option (String × JVal) × List Event :=
  let base_url :=
    if containsSub endpoint "SearchJobs" then beforeFirst endpoint "SearchJobs"
    else beforeLastSlash endpoint
  let api_urls :=
    [base_url ++ "/PublicReports?actionPerformed=getJobsForCareerPage&jobOffset=" ++
      toString offset ++ "&jobRecords=" ++ toString limit,
     endpoint ++ "?output=json&jobOffset=" ++ toString offset ++ "&jobRecords=" ++
      toString limit,
     base_url ++ "/api/jobs?offset=" ++ toString offset ++ "&limit=" ++ toString limit]
  tryJsonApiLoop net api_urls

/-- A scraping config dict (a detection result consumed by the scrapers).
Keys read through `config.get(...)` are `Option`-valued. -/
structure ScrapeConfig where
  tenant : String
  endpoint : String
  career_url : String
  status : String
  type : Option String
  pagination_param : Option String
  page_size_param : Option String
  default_page_size : Option Nat
  sample_job_ids : List String

/-- `scrape_paginated_endpoint` from `jobs_helper.py`: probe with
`try_json_api` first; scrape via the JSON driver when the probe succeeded,
else via the HTML driver. -/
def scrape_paginated_endpoint (config : ScrapeConfig)
    (netJson : String → Option (Nat × Option JVal))
    (netHtml : String → Option (List JobElem)) : List JobData × List Event :=
  let tenant := config.tenant
  let endpoint := config.endpoint
  let pagination_param := config.pagination_param.getD "jobOffset"
  let page_size_param := config.page_size_param.getD "jobRecords"
  let default_page_size := config.default_page_size.getD 50
  let tj := try_json_api tenant endpoint 0 default_page_size netJson
  match tj.1 with
  | some (api_url, _sample_data) =>
      let r := scrape_via_json_api tenant api_url pagination_param page_size_param
        default_page_size netJson
      (r.1, tj.2 ++ r.2)
  | none =>
      let r := scrape_via_html_parsing tenant endpoint pagination_param page_size_param
        default_page_size netHtml
      (r.1, tj.2 ++ r.2)

/-- A detail-page response as seen through the HTTP and HTML-parsing
capabilities: final URL after redirects, status code, and the text of the
first matching title/location/description elements. -/
structure DetailResp where
  final_url : String
  status_code : Nat
  titleText : Option String
  locationText : Option String
  descText : Option String

/-- The per-identifier loop of `scrape_partial_endpoint`: fetch each detail
page, skip login redirects and non-200 responses, keep records with a truthy
title. -/
def scrapePartialLoop (tenant career_url : String) (net : String → Option DetailResp) :
    List String → List JobData × List Event
  | [] => ([], [])
  | job_id :: rest =>
      let job_url := career_url ++ "/JobDetail/" ++ job_id
      let r := scrapePartialLoop tenant career_url net rest
      let ev := Event.netAttempt job_url
      match net job_url with
      | none => (r.1, ev :: r.2)
      | some resp =>
          if containsSub (lowerStr resp.final_url) "login" ||
              containsSub (lowerStr resp.final_url) "signin" then
            (r.1, ev :: r.2)
          else if resp.status_code ≠ 200 then (r.1, ev :: r.2)
          else
            let job_title : JVal :=
              match resp.titleText with
              | some t => jstr (clean_text t)
              | none => jnull
            let location := resp.locationText.map clean_text
            let job_description : JVal :=
              match resp.descText with
              | some d => jstr (clean_text d)
              | none => jnull
            if truthy job_title then
              ({ tenant := tenant, job_title := job_title, job_url := some job_url,
                 job_id := some job_id, location := location, date_posted := none,
                 job_description := job_description } :: r.1, ev :: r.2)
            else (r.1, ev :: r.2)

/-- `scrape_partial_endpoint` from `jobs_helper.py`. -/
def scrape_partial_endpoint (config : ScrapeConfig) (net : String → Option DetailResp) :
    List JobData × List Event :=
  if config.sample_job_ids.isEmpty then ([], [])
  else scrapePartialLoop config.tenant config.career_url net config.sample_job_ids

/-- `scrape_single_config` from `jobs_helper.py`: dispatch on the config's
`status`. -/
def scrape_single_config (config : ScrapeConfig)
    (netJson : String → Option (Nat × Option JVal))
    (netHtml : String → Option (List JobElem))
    (netDetail : String → Option DetailResp) : List JobData × List Event :=
  if config.status = "success" then scrape_paginated_endpoint config netJson netHtml
  else if config.status = "partial" then scrape_partial_endpoint config netDetail
  else ([], [])

/-- Whether every network attempt in the trace is preceded by at least one
`acquire` (the flag records whether an `acquire` has already occurred). -/
def rateLimitedTrace : Bool → List Event → Bool
  | _, [] => true
  | _, Event.acquire :: rest => rateLimitedTrace true rest
  | acquired, Event.netAttempt _ :: rest => acquired && rateLimitedTrace acquired rest

/-- Whether an event is a network attempt. -/
def isNetAttempt : Event → Bool
  | Event.acquire => false
  | Event.netAttempt _ => true

/-- No two records of the list carry the same non-empty job id. -/
def NoDupIds (l : List JobData) : Prop :=
  l.Pairwise (fun a b => ∀ i, i ≠ "" → a.job_id = some i → b.job_id ≠ some i)

/-- Every emitted record's non-empty id is in `seen`, and no two emitted
records share a non-empty id: the invariant the pagination loops maintain. -/
def LoopInv (seen : List String) (jobs : List JobData) : Prop :=
  (∀ r ∈ jobs, ∀ i, r.job_id = some i → i ≠ "" → i ∈ seen) ∧ NoDupIds jobs

/-- Invariant of the per-page item fold, relative to the seen set `seen0` at
page entry: the seen set only grows, every page record's non-empty id is in
the current seen set but was not in `seen0`, and page records have pairwise
distinct non-empty ids. -/
def PageInv (seen0 : List String) (seen : List String) (page_jobs : List JobData) : Prop :=
  (∀ x ∈ seen0, x ∈ seen) ∧
  (∀ r ∈ page_jobs, ∀ i, r.job_id = some i → i ≠ "" → i ∈ seen ∧ i ∉ seen0) ∧
  NoDupIds page_jobs

/-- Concrete test fixture: a detection result whose detected strategy is the
HTML search form (`search_jobs_html`). -/
def cfg_c4 : ScrapeConfig :=
  { tenant := "t", endpoint := "https://t.example/careers/SearchJobs",
    career_url := "https://t.example/careers", status := "success",
    type := some "search_jobs_html", pagination_param := none, page_size_param := none,
    default_page_size := none, sample_job_ids := [] }

/-- Concrete test fixture: one raw JSON job object. -/
def obj_c4 : JVal := jobj [("id", jnum 7), ("title", jstr "A")]

/-- The first candidate URL `try_json_api` builds for `cfg_c4`'s endpoint. -/
def cand1_c4 : String :=
  "https://t.example/careers//PublicReports?actionPerformed=getJobsForCareerPage&jobOffset=0&jobRecords=50"

/-- Concrete test fixture: a server that answers the first `try_json_api`
candidate with a one-job JSON page and everything else with an empty JSON
page. -/
def netJson_c4 : String → Option (Nat × Option JVal) := fun u =>
  if u = cand1_c4 then some (200, some (jobj [("jobs", jarr [obj_c4])]))
  else some (200, some (jobj [("jobs", jarr [])]))

/-- Concrete test fixture: an HTML server whose every page holds one listing
element titled `B`. -/
def netHtml_c4 : String → Option (List JobElem) := fun _ =>
  some [{ anchor := some ("B", "/JobDetail/B/9999"), text := "B", cityString := none }]

/-- Concrete test fixture: a career page containing both a
`/PublicReports/<id>/json` identifier pattern and a `SearchJobs` form. -/
def html_c5 : String := "<form action=/careers/SearchJobs> /PublicReports/123/json"

/-- Concrete test fixture: the parsed form of `html_c5`. -/
def soup_c5 : Soup := { forms := [{ action := some "/careers/SearchJobs" }] }

/-- Concrete test fixture: the career-page fetch succeeds with `html_c5`. -/
def attempts_c5 : Nat → AttemptOutcome := fun _ =>
  AttemptOutcome.success 200 html_c5 "https://t.example/careers"

/-- Concrete test fixture: the report probe's test request gets a 404. -/
def netGet_c5 : String → Option (Nat × Option JVal) := fun _ => some (404, none)

/-- Concrete test fixture: HEAD requests all raise. -/
def netHead_c5 : String → Option Nat := fun _ => none

/-- Concrete test fixture: an API URL template carrying both pagination
query parameters. -/
def tpl_c6 : String := "https://x.co/PublicReports?a=b&jobOffset=0&jobRecords=10"

/-- Concrete test fixture: ten raw job objects with distinct identifiers. -/
def items10_c6 : List JVal := (List.range 10).map (fun i =>
  jobj [("id", jnum (i + 1)), ("title", jstr ("T" ++ toString (i + 1)))])

/-- Concrete test fixture: a server that returns the identical 10-item page
at every offset. -/
def net_c6 : String → Option (Nat × Option JVal) := fun _ =>
  some (200, some (jarr items10_c6))

/-- Page-0 accumulator of the `net_c6` run. -/
def accPage0_c6 : PageAcc :=
  processItems "t" (jsonBaseUrl (jsonPageUrl tpl_c6 "jobOffset" "jobRecords" 0 10))
    items10_c6 { seen := [], page_jobs := [], dups := 0, newJobs := 0 }

/-- Concrete test fixture: five raw job objects with distinct identifiers. -/
def items5_c7 : List JVal := (List.range 5).map (fun i =>
  jobj [("id", jnum (i + 1)), ("title", jstr ("T" ++ toString (i + 1)))])

/-- Concrete test fixture: a server with five jobs on page 0 and empty pages
thereafter. -/
def net_c7 : String → Option (Nat × Option JVal) := fun u =>
  if u = jsonPageUrl tpl_c6 "jobOffset" "jobRecords" 0 10 then
    some (200, some (jobj [("jobs", jarr items5_c7)]))
  else some (200, some (jobj [("jobs", jarr [])]))

/-- Page-0 accumulator of the `net_c7` run. -/
def accPage0_c7 : PageAcc :=
  processItems "t" (jsonBaseUrl (jsonPageUrl tpl_c6 "jobOffset" "jobRecords" 0 10))
    items5_c7 { seen := [], page_jobs := [], dups := 0, newJobs := 0 }

/-- Following the spec's words — "URL is resolved similarly from alias
fields, else synthesized from a template combining the base URL, a slugified
title, and the identifier": the first truthy value among the `url`,
`jobUrl`, `applyUrl` aliases, else the synthesized template. -/
def specJobUrlVal (f : List (String × JVal)) (base slug idStr : String) : JVal :=
  match [jGet f "url", jGet f "jobUrl", jGet f "applyUrl"].find? truthy with
  | some v => v
  | none => jstr (base ++ "/JobDetail/" ++ slug ++ "/" ++ idStr)

/-- Concrete test fixture: a titled, identifier-less job object carrying a
`url` field. -/
def fields_c9 : List (String × JVal) := [("title", jstr "T"), ("url", jstr "http://x/y")]

/-- Concrete test fixture: a titled job object with an identifier and no URL
aliases. -/
def fields_c9w : List (String × JVal) := [("id", jnum 5), ("title", jstr "T x")]

/-- The record `parse_job_from_json` produces for `fields_c9w` against base
URL `https://b`. -/
def rec_c9w : JobData :=
  { tenant := "t", job_title := jstr "T x", job_url := some "https://b/JobDetail/T-x/5",
    job_id := some "5", location := none, date_posted := none, job_description := jnull }

/-- Concrete test fixture: a listing element whose anchor points at a job
detail path. -/
def elem_c10 : JobElem :=
  { anchor := some ("T", "/JobDetail/x/1234"), text := "", cityString := none }

/-- The record `parse_job_from_listing` produces for `elem_c10` against base
URL `https://h`. -/
def rec_c10 : JobData :=
  { tenant := "t", job_title := jstr "T", job_url := some "https://h/JobDetail/x/1234",
    job_id := some "1234", location := none, date_posted := none, job_description := jnull }

end Scraper

namespace Scraper

open JVal

theorem scrapeJsonLoop_events_le (t tpl pp pps : String) (ps : Nat)
    (net : String → Option (Nat × Option JVal)) :
    ∀ fuel page ce seen jobs events,
      (scrapeJsonLoop t tpl pp pps ps net fuel page ce seen jobs events).2.length ≤
        events.length + fuel := by
  intro fuel
  induction fuel with
  | zero => intro page ce seen jobs events; simp [scrapeJsonLoop]
  | succ n ih =>
      intro page ce seen jobs events
      simp only [scrapeJsonLoop]
      repeat' split
      all_goals
        first
          | simp
          | (refine le_trans (ih _ _ _ _ _) ?_; simp; omega)

theorem scrapeHtmlLoop_events_le (t ep pp pps : String) (ps : Nat)
    (net : String → Option (List JobElem)) :
    ∀ fuel page ce seen jobs events,
      (scrapeHtmlLoop t ep pp pps ps net fuel page ce seen jobs events).2.length ≤
        events.length + fuel := by
  intro fuel
  induction fuel with
  | zero => intro page ce seen jobs events; simp [scrapeHtmlLoop]
  | succ n ih =>
      intro page ce seen jobs events
      simp only [scrapeHtmlLoop]
      repeat' split
      all_goals
        first
          | simp
          | (refine le_trans (ih _ _ _ _ _) ?_; simp; omega)

theorem processItem_parse_none (t b : String) (acc : PageAcc) (o : JVal)
    (hp : parse_job_from_json o t b = none) : processItem t b acc o = acc := by
  simp [processItem, hp]

theorem processItem_id_none (t b : String) (acc : PageAcc) (o : JVal) (jd : JobData)
    (hp : parse_job_from_json o t b = some jd) (hid : jd.job_id = none) :
    processItem t b acc o =
      { acc with page_jobs := acc.page_jobs ++ [jd], newJobs := acc.newJobs + 1 } := by
  simp [processItem, hp, hid]

theorem processItem_id_empty (t b : String) (acc : PageAcc) (o : JVal) (jd : JobData)
    (hp : parse_job_from_json o t b = some jd) (hid : jd.job_id = some "") :
    processItem t b acc o =
      { acc with page_jobs := acc.page_jobs ++ [jd], newJobs := acc.newJobs + 1 } := by
  simp [processItem, hp, hid]

theorem processItem_dup (t b : String) (acc : PageAcc) (o : JVal) (jd : JobData) (i : String)
    (hp : parse_job_from_json o t b = some jd) (hid : jd.job_id = some i)
    (hne : i ≠ "") (hmem : i ∈ acc.seen) :
    processItem t b acc o = { acc with dups := acc.dups + 1 } := by
  simp [processItem, hp, hid, hne, hmem]

theorem processItem_new (t b : String) (acc : PageAcc) (o : JVal) (jd : JobData) (i : String)
    (hp : parse_job_from_json o t b = some jd) (hid : jd.job_id = some i)
    (hne : i ≠ "") (hmem : i ∉ acc.seen) :
    processItem t b acc o =
      { acc with
        seen := i :: acc.seen
        page_jobs := acc.page_jobs ++ [jd]
        newJobs := acc.newJobs + 1 } := by
  simp [processItem, hp, hid, hne, hmem]

theorem PageInv_append (seen0 seen : List String) (page_jobs : List JobData) (jd : JobData)
    (h : PageInv seen0 seen page_jobs)
    (hjd : ∀ i, jd.job_id = some i → i ≠ "" → i ∈ seen ∧ i ∉ seen0)
    (hfresh : ∀ i, jd.job_id = some i → i ≠ "" → ∀ r ∈ page_jobs, r.job_id ≠ some i) :
    PageInv seen0 seen (page_jobs ++ [jd]) := by
  obtain ⟨h1, h2, h3⟩ := h
  refine ⟨h1, ?_, ?_⟩
  · intro r hr i hri hi
    rcases List.mem_append.mp hr with hr | hr
    · exact h2 r hr i hri hi
    · rw [List.mem_singleton.mp hr] at hri
      exact hjd i hri hi
  · unfold NoDupIds at h3 ⊢
    rw [List.pairwise_append]
    refine ⟨h3, List.pairwise_singleton _ _, ?_⟩
    intro a ha b hb i hi hai
    rw [List.mem_singleton.mp hb]
    intro hbi
    exact hfresh i hbi hi a ha hai

theorem PageInv_grow (seen0 seen : List String) (page_jobs : List JobData) (i : String)
    (h : PageInv seen0 seen page_jobs) :
    PageInv seen0 (i :: seen) page_jobs := by
  obtain ⟨h1, h2, h3⟩ := h
  refine ⟨fun x hx => List.mem_cons_of_mem _ (h1 x hx), ?_, h3⟩
  intro r hr j hrj hj
  exact ⟨List.mem_cons_of_mem _ (h2 r hr j hrj hj).1, (h2 r hr j hrj hj).2⟩

theorem processItem_inv (t b : String) (seen0 : List String) (acc : PageAcc) (o : JVal)
    (h : PageInv seen0 acc.seen acc.page_jobs) :
    PageInv seen0 (processItem t b acc o).seen (processItem t b acc o).page_jobs := by
  cases hp : parse_job_from_json o t b with
  | none => rw [processItem_parse_none t b acc o hp]; exact h
  | some jd =>
      cases hid : jd.job_id with
      | none =>
          rw [processItem_id_none t b acc o jd hp hid]
          exact PageInv_append _ _ _ _ h
            (fun i hi _ => by rw [hid] at hi; cases hi)
            (fun i hi _ => by rw [hid] at hi; cases hi)
      | some i =>
          by_cases hne : i = ""
          · subst hne
            rw [processItem_id_empty t b acc o jd hp hid]
            exact PageInv_append _ _ _ _ h
              (fun j hj hjne => by rw [hid] at hj; cases hj; exact absurd rfl hjne)
              (fun j hj hjne => by rw [hid] at hj; cases hj; exact absurd rfl hjne)
          · by_cases hmem : i ∈ acc.seen
            · rw [processItem_dup t b acc o jd i hp hid hne hmem]; exact h
            · rw [processItem_new t b acc o jd i hp hid hne hmem]
              refine PageInv_append _ _ _ _ (PageInv_grow _ _ _ i h) ?_ ?_
              · intro j hj _
                rw [hid] at hj
                cases hj
                refine ⟨List.mem_cons_self _ _, fun hcon => hmem (h.1 _ hcon)⟩
              · intro j hj _ r hr hcon
                rw [hid] at hj
                cases hj
                exact hmem (h.2.1 r hr _ hcon (by assumption)).1

theorem processItems_inv (t b : String) (seen0 : List String) (items : List JVal) :
    ∀ acc : PageAcc, PageInv seen0 acc.seen acc.page_jobs →
      PageInv seen0 (processItems t b items acc).seen (processItems t b items acc).page_jobs := by
  induction items with
  | nil => intro acc h; exact h
  | cons o rest ih =>
      intro acc h
      have hstep := processItem_inv t b seen0 acc o h
      exact ih (processItem t b acc o) hstep

theorem LoopInv_extend (seen seen' : List String) (jobs pj : List JobData)
    (hL : LoopInv seen jobs) (hmono : ∀ x ∈ seen, x ∈ seen')
    (hpj : ∀ r ∈ pj, ∀ i, r.job_id = some i → i ≠ "" → i ∈ seen' ∧ i ∉ seen)
    (hpn : NoDupIds pj) : LoopInv seen' (jobs ++ pj) := by
  obtain ⟨hJ, hN⟩ := hL
  constructor
  · intro r hr i hri hi
    rcases List.mem_append.mp hr with hh | hh
    · exact hmono _ (hJ r hh i hri hi)
    · exact (hpj r hh i hri hi).1
  · unfold NoDupIds at hN hpn ⊢
    rw [List.pairwise_append]
    refine ⟨hN, hpn, ?_⟩
    intro a ha b hb i hi hai hbi
    exact (hpj b hb i hbi hi).2 (hJ a ha i hai hi)

theorem PageInv_start (seen : List String) : PageInv seen seen [] :=
  ⟨fun _ hx => hx, by simp, List.Pairwise.nil⟩

theorem jsonPage_LoopInv (t b : String) (items : List JVal) (seen : List String)
    (jobs : List JobData) (hL : LoopInv seen jobs) :
    LoopInv (processItems t b items { seen := seen, page_jobs := [], dups := 0, newJobs := 0 }).seen
      (jobs ++
        (processItems t b items
          { seen := seen, page_jobs := [], dups := 0, newJobs := 0 }).page_jobs) := by
  have hP := processItems_inv t b seen items
    { seen := seen, page_jobs := [], dups := 0, newJobs := 0 } (PageInv_start seen)
  exact LoopInv_extend _ _ _ _ hL hP.1 hP.2.1 hP.2.2

theorem scrapeJsonLoop_NoDupIds (t tpl pp pps : String) (ps : Nat)
    (net : String → Option (Nat × Option JVal)) :
    ∀ fuel page ce seen jobs events, LoopInv seen jobs →
      NoDupIds (scrapeJsonLoop t tpl pp pps ps net fuel page ce seen jobs events).1 := by
  intro fuel
  induction fuel with
  | zero => intro page ce seen jobs events hL; exact hL.2
  | succ n ih =>
      intro page ce seen jobs events hL
      simp only [scrapeJsonLoop]
      repeat' split
      all_goals first
        | exact hL.2
        | exact ih _ _ _ _ _ (jsonPage_LoopInv _ _ _ _ _ hL)

theorem processListingItem_parse_none (ep t : String) (acc : ListingAcc) (e : JobElem)
    (hp : parse_job_from_listing e ep t = none) : processListingItem ep t acc e = acc := by
  simp [processListingItem, hp]

theorem processListingItem_id_none (ep t : String) (acc : ListingAcc) (e : JobElem)
    (jd : JobData) (hp : parse_job_from_listing e ep t = some jd) (hid : jd.job_id = none) :
    processListingItem ep t acc e = { acc with page_jobs := acc.page_jobs ++ [jd] } := by
  simp [processListingItem, hp, hid]

theorem processListingItem_id_empty (ep t : String) (acc : ListingAcc) (e : JobElem)
    (jd : JobData) (hp : parse_job_from_listing e ep t = some jd)
    (hid : jd.job_id = some "") :
    processListingItem ep t acc e = { acc with page_jobs := acc.page_jobs ++ [jd] } := by
  simp [processListingItem, hp, hid]

theorem processListingItem_dup (ep t : String) (acc : ListingAcc) (e : JobElem)
    (jd : JobData) (i : String) (hp : parse_job_from_listing e ep t = some jd)
    (hid : jd.job_id = some i) (hne : i ≠ "") (hmem : i ∈ acc.seen) :
    processListingItem ep t acc e = { acc with dups := acc.dups + 1 } := by
  simp [processListingItem, hp, hid, hne, hmem]

theorem processListingItem_new (ep t : String) (acc : ListingAcc) (e : JobElem)
    (jd : JobData) (i : String) (hp : parse_job_from_listing e ep t = some jd)
    (hid : jd.job_id = some i) (hne : i ≠ "") (hmem : i ∉ acc.seen) :
    processListingItem ep t acc e =
      { acc with
        seen := i :: acc.seen
        page_jobs := acc.page_jobs ++ [jd] } := by
  simp [processListingItem, hp, hid, hne, hmem]

theorem processListingItem_inv (ep t : String) (seen0 : List String) (acc : ListingAcc)
    (e : JobElem) (h : PageInv seen0 acc.seen acc.page_jobs) :
    PageInv seen0 (processListingItem ep t acc e).seen
      (processListingItem ep t acc e).page_jobs := by
  cases hp : parse_job_from_listing e ep t with
  | none => rw [processListingItem_parse_none ep t acc e hp]; exact h
  | some jd =>
      cases hid : jd.job_id with
      | none =>
          rw [processListingItem_id_none ep t acc e jd hp hid]
          exact PageInv_append _ _ _ _ h
            (fun i hi _ => by rw [hid] at hi; cases hi)
            (fun i hi _ => by rw [hid] at hi; cases hi)
      | some i =>
          by_cases hne : i = ""
          · subst hne
            rw [processListingItem_id_empty ep t acc e jd hp hid]
            exact PageInv_append _ _ _ _ h
              (fun j hj hjne => by rw [hid] at hj; cases hj; exact absurd rfl hjne)
              (fun j hj hjne => by rw [hid] at hj; cases hj; exact absurd rfl hjne)
          · by_cases hmem : i ∈ acc.seen
            · rw [processListingItem_dup ep t acc e jd i hp hid hne hmem]; exact h
            · rw [processListingItem_new ep t acc e jd i hp hid hne hmem]
              refine PageInv_append _ _ _ _ (PageInv_grow _ _ _ i h) ?_ ?_
              · intro j hj _
                rw [hid] at hj
                cases hj
                refine ⟨List.mem_cons_self _ _, fun hcon => hmem (h.1 _ hcon)⟩
              · intro j hj _ r hr hcon
                rw [hid] at hj
                cases hj
                exact hmem (h.2.1 r hr _ hcon (by assumption)).1

theorem processListingItems_inv (ep t : String) (seen0 : List String) (elems : List JobElem) :
    ∀ acc : ListingAcc, PageInv seen0 acc.seen acc.page_jobs →
      PageInv seen0 (processListingItems ep t elems acc).seen
        (processListingItems ep t elems acc).page_jobs := by
  induction elems with
  | nil => intro acc h; exact h
  | cons e rest ih =>
      intro acc h
      exact ih (processListingItem ep t acc e) (processListingItem_inv ep t seen0 acc e h)

theorem htmlPage_LoopInv (ep t : String) (elems : List JobElem) (seen : List String)
    (jobs : List JobData) (hL : LoopInv seen jobs) :
    LoopInv (processListingItems ep t elems { seen := seen, page_jobs := [], dups := 0 }).seen
      (jobs ++
        (processListingItems ep t elems
          { seen := seen, page_jobs := [], dups := 0 }).page_jobs) := by
  have hP := processListingItems_inv ep t seen elems
    { seen := seen, page_jobs := [], dups := 0 } (PageInv_start seen)
  exact LoopInv_extend _ _ _ _ hL hP.1 hP.2.1 hP.2.2

theorem scrapeHtmlLoop_NoDupIds (t ep pp pps : String) (ps : Nat)
    (net : String → Option (List JobElem)) :
    ∀ fuel page ce seen jobs events, LoopInv seen jobs →
      NoDupIds (scrapeHtmlLoop t ep pp pps ps net fuel page ce seen jobs events).1 := by
  intro fuel
  induction fuel with
  | zero => intro page ce seen jobs events hL; exact hL.2
  | succ n ih =>
      intro page ce seen jobs events hL
      simp only [scrapeHtmlLoop]
      repeat' split
      all_goals first
        | exact hL.2
        | exact ih _ _ _ _ _ hL
        | exact ih _ _ _ _ _ (htmlPage_LoopInv _ _ _ _ _ hL)

/-- C1: for every extraction run of `scrape_via_json_api` or
`scrape_via_html_parsing`, under any server responses, the returned sequence
of records contains no two elements with equal, non-empty `job_id`: a record
whose identifier is already in the seen set is skipped, and every emitted
non-empty identifier enters the seen set before the next item is
considered. -/
theorem scrape_no_duplicate_ids
    (tenant api_url_template endpoint pagination_param page_size_param : String)
    (page_size : Nat) (netJson : String → Option (Nat × Option JVal))
    (netHtml : String → Option (List JobElem)) :
    NoDupIds (scrape_via_json_api tenant api_url_template pagination_param page_size_param
        page_size netJson).1 ∧
    NoDupIds (scrape_via_html_parsing tenant endpoint pagination_param page_size_param
        page_size netHtml).1 := by
  constructor
  · exact scrapeJsonLoop_NoDupIds tenant api_url_template pagination_param page_size_param
      page_size netJson MAX_PAGES_PER_SITE 0 0 [] [] []
      ⟨fun r hr => absurd hr (List.not_mem_nil r), List.Pairwise.nil⟩
  · exact scrapeHtmlLoop_NoDupIds tenant endpoint pagination_param page_size_param
      page_size netHtml MAX_PAGES_PER_SITE 0 0 [] [] []
      ⟨fun r hr => absurd hr (List.not_mem_nil r), List.Pairwise.nil⟩

/-- C2: for every configuration and every sequence of server responses, the
JSON and HTML pagination drivers make at most `MAX_PAGES_PER_SITE` (20) page
fetches (one network attempt is recorded per page iteration, so the trace
length bounds the number of page iterations). -/
theorem scrape_terminates_within_max_pages
    (tenant api_url_template endpoint pagination_param page_size_param : String)
    (page_size : Nat) (netJson : String → Option (Nat × Option JVal))
    (netHtml : String → Option (List JobElem)) :
    (scrape_via_json_api tenant api_url_template pagination_param page_size_param
        page_size netJson).2.length ≤ MAX_PAGES_PER_SITE ∧
    (scrape_via_html_parsing tenant endpoint pagination_param page_size_param
        page_size netHtml).2.length ≤ MAX_PAGES_PER_SITE := by
  constructor
  · have h := scrapeJsonLoop_events_le tenant api_url_template pagination_param
      page_size_param page_size netJson MAX_PAGES_PER_SITE 0 0 [] [] []
    simpa [scrape_via_json_api] using h
  · have h := scrapeHtmlLoop_events_le tenant endpoint pagination_param
      page_size_param page_size netHtml MAX_PAGES_PER_SITE 0 0 [] [] []
    simpa [scrape_via_html_parsing] using h

theorem rateLimitedTrace_true (l : List Event) : rateLimitedTrace true l = true := by
  induction l with
  | nil => rfl
  | cons e rest ih => cases e <;> simp [rateLimitedTrace, ih]

theorem fetchAttemptLoop_all_net (url : String) (attempts : Nat → AttemptOutcome) :
    ∀ k i, ∀ e ∈ (fetchAttemptLoop url attempts k i).1, e = Event.netAttempt url := by
  intro k
  induction k with
  | zero => intro i e he; simp [fetchAttemptLoop] at he
  | succ n ih =>
      intro i e he
      simp only [fetchAttemptLoop] at he
      split at he
      · simp at he; exact he
      · rcases List.mem_cons.mp he with h | h
        · exact h
        · exact ih (i + 1) e h
      · simp at he; exact he

theorem scrapeJsonLoop_all_net (t tpl pp pps : String) (ps : Nat)
    (net : String → Option (Nat × Option JVal)) :
    ∀ fuel page ce seen jobs events, (∀ e ∈ events, isNetAttempt e = true) →
      ∀ e ∈ (scrapeJsonLoop t tpl pp pps ps net fuel page ce seen jobs events).2,
        isNetAttempt e = true := by
  intro fuel
  induction fuel with
  | zero => intro page ce seen jobs events hev; exact hev
  | succ n ih =>
      intro page ce seen jobs events hev
      have hev' : ∀ u, ∀ e ∈ events ++ [Event.netAttempt u], isNetAttempt e = true := by
        intro u e he
        rcases List.mem_append.mp he with h | h
        · exact hev e h
        · rw [List.mem_singleton.mp h]; rfl
      simp only [scrapeJsonLoop]
      repeat' split
      all_goals first
        | exact hev
        | exact hev' _
        | exact ih _ _ _ _ _ (hev' _)

theorem scrapeHtmlLoop_all_net (t ep pp pps : String) (ps : Nat)
    (net : String → Option (List JobElem)) :
    ∀ fuel page ce seen jobs events, (∀ e ∈ events, isNetAttempt e = true) →
      ∀ e ∈ (scrapeHtmlLoop t ep pp pps ps net fuel page ce seen jobs events).2,
        isNetAttempt e = true := by
  intro fuel
  induction fuel with
  | zero => intro page ce seen jobs events hev; exact hev
  | succ n ih =>
      intro page ce seen jobs events hev
      have hev' : ∀ u, ∀ e ∈ events ++ [Event.netAttempt u], isNetAttempt e = true := by
        intro u e he
        rcases List.mem_append.mp he with h | h
        · exact hev e h
        · rw [List.mem_singleton.mp h]; rfl
      simp only [scrapeHtmlLoop]
      repeat' split
      all_goals first
        | exact hev
        | exact hev' _
        | exact ih _ _ _ _ _ (hev' _)

theorem tryJsonApiLoop_all_net (net : String → Option (Nat × Option JVal)) :
    ∀ urls, ∀ e ∈ (tryJsonApiLoop net urls).2, isNetAttempt e = true := by
  intro urls
  induction urls with
  | nil => intro e he; simp [tryJsonApiLoop] at he
  | cons u rest ih =>
      intro e he
      simp only [tryJsonApiLoop] at he
      have hcons : e ∈ Event.netAttempt u :: (tryJsonApiLoop net rest).2 →
          isNetAttempt e = true := by
        intro hc
        rcases List.mem_cons.mp hc with h | h
        · rw [h]; rfl
        · exact ih e h
      have hsingle : e ∈ [Event.netAttempt u] → isNetAttempt e = true := by
        intro hc; rw [List.mem_singleton.mp hc]; rfl
      repeat' split at he
      all_goals first | exact hcons he | exact hsingle he

theorem scrapePartialLoop_all_net (t cu : String) (net : String → Option DetailResp) :
    ∀ ids, ∀ e ∈ (scrapePartialLoop t cu net ids).2, isNetAttempt e = true := by
  intro ids
  induction ids with
  | nil => intro e he; simp [scrapePartialLoop] at he
  | cons j rest ih =>
      intro e he
      simp only [scrapePartialLoop] at he
      have hcons : e ∈ Event.netAttempt (cu ++ "/JobDetail/" ++ j) ::
          (scrapePartialLoop t cu net rest).2 → isNetAttempt e = true := by
        intro hc
        rcases List.mem_cons.mp hc with h | h
        · rw [h]; rfl
        · exact ih e h
      repeat' split at he
      all_goals exact hcons he

/-- C3 (amended): `acquire()` precedes every network attempt in the
detection stage — `fetch_page` acquires once before its attempts, and the
probes of `detect_endpoint_for_url` acquire before each of their test
requests — while the pagination drivers, the `try_json_api` probe and the
detail-page scraper of `jobs_helper.py` issue all their requests without any
`RateLimiter` acquire. -/
theorem rate_limiting_scope :
    (∀ url attempts max_retries,
      rateLimitedTrace false (fetch_page url attempts max_retries).1 = true) ∧
    (∀ tenant url icp attempts parseHtml netGet netHead,
      rateLimitedTrace false
        (detect_endpoint_for_url tenant url icp attempts parseHtml netGet netHead).2 = true) ∧
    (∀ tenant tpl pp pps ps netJson,
      ∀ e ∈ (scrape_via_json_api tenant tpl pp pps ps netJson).2, isNetAttempt e = true) ∧
    (∀ tenant ep pp pps ps netHtml,
      ∀ e ∈ (scrape_via_html_parsing tenant ep pp pps ps netHtml).2,
        isNetAttempt e = true) ∧
    (∀ config netDetail,
      ∀ e ∈ (scrape_partial_endpoint config netDetail).2, isNetAttempt e = true) ∧
    (∀ tenant endpoint offs lim netJson,
      ∀ e ∈ (try_json_api tenant endpoint offs lim netJson).2, isNetAttempt e = true) := by
  refine ⟨?_, ?_, ?_, ?_, ?_, ?_⟩
  · intro url attempts max_retries
    show rateLimitedTrace false (Event.acquire :: _) = true
    rw [rateLimitedTrace]
    exact rateLimitedTrace_true _
  · intro tenant url icp attempts parseHtml netGet netHead
    have hhead : ∃ t, (detect_endpoint_for_url tenant url icp attempts parseHtml
        netGet netHead).2 = Event.acquire :: t := by
      simp only [detect_endpoint_for_url, fetch_page]
      repeat' split
      all_goals exact ⟨_, rfl⟩
    obtain ⟨t, ht⟩ := hhead
    rw [ht, rateLimitedTrace]
    exact rateLimitedTrace_true _
  · intro tenant tpl pp pps ps netJson
    exact scrapeJsonLoop_all_net tenant tpl pp pps ps netJson MAX_PAGES_PER_SITE 0 0 [] [] []
      (fun e he => absurd he (List.not_mem_nil e))
  · intro tenant ep pp pps ps netHtml
    exact scrapeHtmlLoop_all_net tenant ep pp pps ps netHtml MAX_PAGES_PER_SITE 0 0 [] [] []
      (fun e he => absurd he (List.not_mem_nil e))
  · intro config netDetail e he
    simp only [scrape_partial_endpoint] at he
    split at he
    · simp at he
    · exact scrapePartialLoop_all_net _ _ _ _ e he
  · intro tenant endpoint offs lim netJson e he
    exact tryJsonApiLoop_all_net netJson _ e he

theorem rate_limiting_scope_witness : isNetAttempt (Event.netAttempt "u") = true :=
  rate_limiting_scope.2.2.1 "t" "u" "jobOffset" "jobRecords" 10 (fun _ => none)
    (Event.netAttempt "u") (List.mem_singleton.mpr rfl)

/-- C3 counterexample: a `scrape_via_json_api` run fetches a page with no
preceding `acquire()` — its whole trace is one network attempt and no
acquire event, so "acquire is called at least once before any network
attempt for every fetched page" fails on the code. -/
theorem rate_limiting_bypassed_counterexample :
    (scrape_via_json_api "t" "u" "jobOffset" "jobRecords" 10 (fun _ => none)).2 =
      [Event.netAttempt "u"] ∧
    rateLimitedTrace false [Event.netAttempt "u"] = false :=
  ⟨rfl, rfl⟩

theorem fetchAttemptLoop_len (url : String) (attempts : Nat → AttemptOutcome) :
    ∀ k i, (fetchAttemptLoop url attempts k i).1.length ≤ k := by
  intro k
  induction k with
  | zero => intro i; simp [fetchAttemptLoop]
  | succ n ih =>
      intro i
      simp only [fetchAttemptLoop]
      split
      · simp
      · have := ih (i + 1)
        simp only [List.length_cons]
        omega
      · simp

theorem fetchAttemptLoop_timeouts (url : String) (attempts : Nat → AttemptOutcome) :
    ∀ k i j, j + 1 < (fetchAttemptLoop url attempts k i).1.length →
      attempts (i + j) = AttemptOutcome.timeout := by
  intro k
  induction k with
  | zero => intro i j hj; simp [fetchAttemptLoop] at hj
  | succ n ih =>
      intro i j hj
      simp only [fetchAttemptLoop] at hj
      split at hj
      · simp at hj
      · cases j with
        | zero =>
            rename_i heq
            simpa using heq
        | succ j' =>
            have : j' + 1 < (fetchAttemptLoop url attempts n (i + 1)).1.length := by
              simp only [List.length_cons] at hj
              omega
            have h := ih (i + 1) j' this
            have harith : i + 1 + j' = i + (j' + 1) := by omega
            rwa [harith] at h
      · simp at hj

theorem fetchAttemptLoop_all_fail (url : String) (attempts : Nat → AttemptOutcome)
    (hfail : ∀ j s t u, attempts j ≠ AttemptOutcome.success s t u) :
    ∀ k i, (fetchAttemptLoop url attempts k i).2 = none := by
  intro k
  induction k with
  | zero => intro i; simp [fetchAttemptLoop]
  | succ n ih =>
      intro i
      simp only [fetchAttemptLoop]
      split
      · rename_i st tx fu heq
        exact absurd heq (hfail i st tx fu)
      · exact ih (i + 1)
      · rfl

/-- C8: `fetch_page` calls `acquire()` exactly once, before the first
attempt; every attempt except a possible last one was a timeout (so it
retries only on timeout, and any other transport error aborts immediately);
it makes at most `max_retries` attempts; when no attempt succeeds it returns
the failure value `none`; and a request exception on the first attempt ends
the call after that single attempt with `none`. -/
theorem fetch_page_contract (url : String) (attempts : Nat → AttemptOutcome)
    (max_retries : Nat) :
    (fetch_page url attempts max_retries).1.head? = some Event.acquire ∧
    (fetch_page url attempts max_retries).1.count Event.acquire = 1 ∧
    (∀ e ∈ (fetch_page url attempts max_retries).1.tail, e = Event.netAttempt url) ∧
    (fetch_page url attempts max_retries).1.tail.length ≤ max_retries ∧
    (∀ j, j + 1 < (fetch_page url attempts max_retries).1.tail.length →
      attempts j = AttemptOutcome.timeout) ∧
    ((∀ j s t u, attempts j ≠ AttemptOutcome.success s t u) →
      (fetch_page url attempts max_retries).2 = none) ∧
    (attempts 0 = AttemptOutcome.reqError → 0 < max_retries →
      (fetch_page url attempts max_retries).1.tail.length = 1 ∧
        (fetch_page url attempts max_retries).2 = none) := by
  refine ⟨rfl, ?_, ?_, ?_, ?_, ?_, ?_⟩
  · show (Event.acquire :: (fetchAttemptLoop url attempts max_retries 0).1).count
      Event.acquire = 1
    rw [List.count_cons_self]
    have hz : (fetchAttemptLoop url attempts max_retries 0).1.count Event.acquire = 0 := by
      rw [List.count_eq_zero]
      intro hmem
      have := fetchAttemptLoop_all_net url attempts max_retries 0 _ hmem
      cases this
    omega
  · exact fetchAttemptLoop_all_net url attempts max_retries 0
  · exact fetchAttemptLoop_len url attempts max_retries 0
  · intro j hj
    have := fetchAttemptLoop_timeouts url attempts max_retries 0 j hj
    simpa using this
  · intro hfail
    exact fetchAttemptLoop_all_fail url attempts hfail max_retries 0
  · intro hreq hpos
    cases max_retries with
    | zero => exact absurd hpos (by simp)
    | succ n =>
        constructor
        · show (fetchAttemptLoop url attempts (n + 1) 0).1.length = 1
          simp [fetchAttemptLoop, hreq]
        · show (fetchAttemptLoop url attempts (n + 1) 0).2 = none
          simp [fetchAttemptLoop, hreq]

theorem fetch_page_contract_witness :
    (fun _ : Nat => AttemptOutcome.timeout) 0 = AttemptOutcome.timeout ∧
    (fetch_page "u" (fun _ => AttemptOutcome.timeout) 2).2 = none := by
  constructor
  · exact (fetch_page_contract "u" (fun _ => AttemptOutcome.timeout) 2).2.2.2.2.1 0
      (by decide)
  · exact (fetch_page_contract "u" (fun _ => AttemptOutcome.timeout) 2).2.2.2.2.2.1
      (fun j s t u => by simp)

/-- C4 (amended): `scrape_paginated_endpoint` selects the extraction driver
by re-probing the endpoint at runtime with `try_json_api`, not by the
detected `strategyType`: the JSON driver runs exactly when `try_json_api`
succeeds, the HTML driver exactly when it fails. -/
theorem driver_selection_by_probe (config : ScrapeConfig)
    (netJson : String → Option (Nat × Option JVal))
    (netHtml : String → Option (List JobElem)) :
    (∀ u d, (try_json_api config.tenant config.endpoint 0
        (config.default_page_size.getD 50) netJson).1 = some (u, d) →
      (scrape_paginated_endpoint config netJson netHtml).1 =
        (scrape_via_json_api config.tenant u (config.pagination_param.getD "jobOffset")
          (config.page_size_param.getD "jobRecords") (config.default_page_size.getD 50)
          netJson).1) ∧
    ((try_json_api config.tenant config.endpoint 0
        (config.default_page_size.getD 50) netJson).1 = none →
      (scrape_paginated_endpoint config netJson netHtml).1 =
        (scrape_via_html_parsing config.tenant config.endpoint
          (config.pagination_param.getD "jobOffset")
          (config.page_size_param.getD "jobRecords") (config.default_page_size.getD 50)
          netHtml).1) := by
  constructor
  · intro u d h
    simp only [scrape_paginated_endpoint, h]
  · intro h
    simp only [scrape_paginated_endpoint, h]

theorem driver_selection_by_probe_witness :
    (scrape_paginated_endpoint cfg_c4 (fun _ => none) netHtml_c4).1 =
      (scrape_via_html_parsing cfg_c4.tenant cfg_c4.endpoint
        (cfg_c4.pagination_param.getD "jobOffset") (cfg_c4.page_size_param.getD "jobRecords")
        (cfg_c4.default_page_size.getD 50) netHtml_c4).1 :=
  (driver_selection_by_probe cfg_c4 (fun _ => none) netHtml_c4).2 rfl

/-- C4 counterexample: a successful DetectionResult whose `strategyType` is
SearchFormHtml (`search_jobs_html`) is nevertheless extracted with the JSON
driver, because `try_json_api` happens to succeed against its endpoint — the
run returns the JSON-parsed record titled `A`, not the HTML listing record
titled `B` that the HTML driver produces. -/
theorem driver_selection_counterexample :
    cfg_c4.type = some "search_jobs_html" ∧ cfg_c4.status = "success" ∧
    (scrape_paginated_endpoint cfg_c4 netJson_c4 netHtml_c4).1.map
      (fun r => r.job_title) = [JVal.jstr "A"] ∧
    (scrape_via_html_parsing cfg_c4.tenant cfg_c4.endpoint "jobOffset" "jobRecords" 50
      netHtml_c4).1.map (fun r => r.job_title) = [JVal.jstr "B"] ∧
    JVal.jstr "A" ≠ JVal.jstr "B" := by
  refine ⟨rfl, rfl, rfl, rfl, ?_⟩
  simp

/-- C5 (amended): on a successfully fetched career page,
`detect_endpoint_for_url` runs the three probes in strict priority order and
returns the first success (report probe, then search-form probe, then
fallback id scrape, else failure); in particular, when the page contains a
report-endpoint identifier pattern *and the probe's test request succeeds*
(200 with JSON holding a `rows`/`data` field), the selected strategy is the
report-based one, never the search form. -/
theorem detection_priority (tenant url : String) (icp : Bool)
    (attempts : Nat → AttemptOutcome) (parseHtml : String → Soup)
    (netGet : String → Option (Nat × Option JVal)) (netHead : String → Option Nat)
    (html fu : String)
    (hfetch : (fetch_page url attempts 2).2 = some (200, html, fu)) :
    (∀ cfg, (detect_public_reports_endpoint html tenant netGet).1 = some cfg →
      (detect_endpoint_for_url tenant url icp attempts parseHtml netGet netHead).1 =
        { applyReportConfig (baseResult tenant url icp) cfg with status := "success" }) ∧
    ((detect_public_reports_endpoint html tenant netGet).1 = none →
      ∀ cfg, (detect_search_jobs_endpoint html (parseHtml html) tenant netHead).1 = some cfg →
      (detect_endpoint_for_url tenant url icp attempts parseHtml netGet netHead).1 =
        { applySearchConfig (baseResult tenant url icp) cfg with status := "success" }) ∧
    ((detect_public_reports_endpoint html tenant netGet).1 = none →
      (detect_search_jobs_endpoint html (parseHtml html) tenant netHead).1 = none →
      ∀ cfg, detect_job_ids_in_html html (parseHtml html) url = some cfg →
      (detect_endpoint_for_url tenant url icp attempts parseHtml netGet netHead).1 =
        { applyFallbackConfig (baseResult tenant url icp) cfg with status := "partial" }) ∧
    ((detect_public_reports_endpoint html tenant netGet).1 = none →
      (detect_search_jobs_endpoint html (parseHtml html) tenant netHead).1 = none →
      detect_job_ids_in_html html (parseHtml html) url = none →
      (detect_endpoint_for_url tenant url icp attempts parseHtml netGet netHead).1 =
        { baseResult tenant url icp with error := some "no_pattern_detected" }) ∧
    (∀ rid data, scanFirst matchPublicReportsId html.data = some rid →
      netGet (("https://" ++ tenant ++ "/PublicReports/" ++ rid ++ "/json") ++
        "?offset=0&recordsPerPage=1") = some (200, some data) →
      (pyContains data "rows").bind
        (fun r => if r then some true else pyContains data "data") = some true →
      (detect_endpoint_for_url tenant url icp attempts parseHtml netGet netHead).1.type =
        some "public_report_json") := by
  refine ⟨?_, ?_, ?_, ?_, ?_⟩
  · intro cfg hcfg
    simp [detect_endpoint_for_url, hfetch, hcfg]
  · intro h1 cfg hcfg
    simp [detect_endpoint_for_url, hfetch, h1, hcfg]
  · intro h1 h2 cfg hcfg
    simp [detect_endpoint_for_url, hfetch, h1, h2, hcfg]
  · intro h1 h2 h3
    simp [detect_endpoint_for_url, hfetch, h1, h2, h3]
  · intro rid data hscan hget hcond
    have hcfg : (detect_public_reports_endpoint html tenant netGet).1 =
        some { type := "public_report_json",
               endpoint := "https://" ++ tenant ++ "/PublicReports/" ++ rid ++ "/json",
               pagination_param := "offset", page_size_param := "recordsPerPage",
               default_page_size := 1000, confidence := "high",
               test_status := "success" } := by
      simp [detect_public_reports_endpoint, hscan, hget, hcond]
    simp [detect_endpoint_for_url, hfetch, hcfg, applyReportConfig]

theorem detection_priority_witness :
    (detect_endpoint_for_url "t.example" "https://t.example/careers" true attempts_c5
      (fun _ => soup_c5) netGet_c5 netHead_c5).1 =
      { applySearchConfig (baseResult "t.example" "https://t.example/careers" true)
          { type := "search_jobs_html",
            endpoint := urljoin ("https://" ++ "t.example") "/careers/SearchJobs",
            pagination_param := "jobOffset", page_size_param := "jobRecords",
            default_page_size := 50, confidence := "medium",
            method := "form_detection" } with status := "success" } :=
  (detection_priority "t.example" "https://t.example/careers" true attempts_c5
    (fun _ => soup_c5) netGet_c5 netHead_c5 html_c5 "https://t.example/careers"
    rfl).2.1 rfl _ rfl

/-- C5 counterexample: a fetched page containing both a report-endpoint
identifier pattern (`/PublicReports/123/json`) and a `SearchJobs` form is
detected as SearchFormHtml (`search_jobs_html`), not ReportJson, because the
report probe's test request returns 404 — so "for every fetched page
containing both, the selected strategy is the report-based one, never
SearchFormHtml" fails on the code. -/
theorem detection_priority_counterexample :
    scanFirst matchPublicReportsId html_c5.data = some "123" ∧
    (soup_c5.forms.filter (fun f =>
      match f.action with
      | some a => containsSubCI a "SearchJobs"
      | none => false)).length = 1 ∧
    (detect_endpoint_for_url "t.example" "https://t.example/careers" true attempts_c5
      (fun _ => soup_c5) netGet_c5 netHead_c5).1.type = some "search_jobs_html" ∧
    (detect_endpoint_for_url "t.example" "https://t.example/careers" true attempts_c5
      (fun _ => soup_c5) netGet_c5 netHead_c5).1.status = "success" :=
  ⟨rfl, rfl, rfl, rfl⟩

/-- C6: when the fraction of duplicates among the items of the current page
exceeds 0.8, both pagination drivers stop at that page (the accumulated jobs
are returned and no further fetch happens); and for the concrete source that
returns the identical 10-item page (distinct-id, titled items) at every
offset, extraction stops after page 1 (two fetches) and returns exactly the
10 records of page 0. -/
theorem duplicate_flood_termination :
    (∀ (t tpl pp pps : String) (ps : Nat) (net : String → Option (Nat × Option JVal))
        (data : JVal) (items : List JVal) (fuel page ce : Nat) (seen : List String)
        (jobs : List JobData) (events : List Event),
      page < MAX_PAGES_PER_SITE →
      net (jsonPageUrl tpl pp pps (page * ps) ps) = some (200, some data) →
      pyIter (jobsListVal data) = some items →
      0 < items.length →
      5 * (processItems t (jsonBaseUrl (jsonPageUrl tpl pp pps (page * ps) ps)) items
          { seen := seen, page_jobs := [], dups := 0, newJobs := 0 }).dups >
        4 * items.length →
      scrapeJsonLoop t tpl pp pps ps net (fuel + 1) page ce seen jobs events =
        (jobs, events ++ [Event.netAttempt (jsonPageUrl tpl pp pps (page * ps) ps)])) ∧
    (∀ (t ep pp pps : String) (ps : Nat) (net : String → Option (List JobElem))
        (elems : List JobElem) (fuel page ce : Nat) (seen : List String)
        (jobs : List JobData) (events : List Event),
      page < MAX_PAGES_PER_SITE →
      net (htmlPageUrl ep pp pps (page * ps) ps) = some elems →
      elems.isEmpty = false →
      0 < elems.length →
      5 * (processListingItems ep t elems
          { seen := seen, page_jobs := [], dups := 0 }).dups > 4 * elems.length →
      scrapeHtmlLoop t ep pp pps ps net (fuel + 1) page ce seen jobs events =
        (jobs, events ++ [Event.netAttempt (htmlPageUrl ep pp pps (page * ps) ps)])) ∧
    ((scrape_via_json_api "t" tpl_c6 "jobOffset" "jobRecords" 10 net_c6).1 =
        accPage0_c6.page_jobs ∧
      accPage0_c6.page_jobs.length = 10 ∧
      (scrape_via_json_api "t" tpl_c6 "jobOffset" "jobRecords" 10 net_c6).2.length = 2) := by
  refine ⟨?_, ?_, ⟨rfl, rfl, rfl⟩⟩
  · intro t tpl pp pps ps net data items fuel page ce seen jobs events
      hpage hnet hiter hlen hdup
    simp [scrapeJsonLoop, hpage, hnet, hiter, hlen, hdup]
  · intro t ep pp pps ps net elems fuel page ce seen jobs events
      hpage hnet helems hlen hdup
    simp [scrapeHtmlLoop, hpage, hnet, helems, hlen, hdup]

set_option maxRecDepth 8000 in
theorem duplicate_flood_termination_witness :
    scrapeJsonLoop "t" tpl_c6 "jobOffset" "jobRecords" 10 net_c6 19 1 0
      accPage0_c6.seen accPage0_c6.page_jobs
      [Event.netAttempt (jsonPageUrl tpl_c6 "jobOffset" "jobRecords" 0 10)] =
      (accPage0_c6.page_jobs,
        [Event.netAttempt (jsonPageUrl tpl_c6 "jobOffset" "jobRecords" 0 10)] ++
          [Event.netAttempt (jsonPageUrl tpl_c6 "jobOffset" "jobRecords" (1 * 10) 10)]) :=
  duplicate_flood_termination.1 "t" tpl_c6 "jobOffset" "jobRecords" 10 net_c6
    (jarr items10_c6) items10_c6 18 1 0 accPage0_c6.seen accPage0_c6.page_jobs
    [Event.netAttempt (jsonPageUrl tpl_c6 "jobOffset" "jobRecords" 0 10)]
    (by decide) rfl rfl (by decide) (by decide)

/-- C7: a page yielding zero new records increments the consecutive-empty
counter and the drivers stop once it reaches 2, while a page with at least
one new record resets it to 0 (shown for both drivers as the three loop
transitions: stop at the second empty page, continue with an incremented
counter at the first, reset on a productive page); and the concrete source
with 5 new items on page 0 followed by empty pages stops after page 2
(three fetches) with exactly those 5 records. -/
theorem emptiness_termination :
    (∀ (t tpl pp pps : String) (ps : Nat) (net : String → Option (Nat × Option JVal))
        (data : JVal) (items : List JVal) (fuel page ce : Nat) (seen : List String)
        (jobs : List JobData) (events : List Event),
      page < MAX_PAGES_PER_SITE →
      net (jsonPageUrl tpl pp pps (page * ps) ps) = some (200, some data) →
      pyIter (jobsListVal data) = some items →
      ¬(0 < items.length ∧
        5 * (processItems t (jsonBaseUrl (jsonPageUrl tpl pp pps (page * ps) ps)) items
            { seen := seen, page_jobs := [], dups := 0, newJobs := 0 }).dups >
          4 * items.length) →
      (processItems t (jsonBaseUrl (jsonPageUrl tpl pp pps (page * ps) ps)) items
          { seen := seen, page_jobs := [], dups := 0, newJobs := 0 }).newJobs = 0 →
      ((ce + 1 ≥ 2 →
        scrapeJsonLoop t tpl pp pps ps net (fuel + 1) page ce seen jobs events =
          (jobs, events ++ [Event.netAttempt (jsonPageUrl tpl pp pps (page * ps) ps)])) ∧
       (ce + 1 < 2 →
        scrapeJsonLoop t tpl pp pps ps net (fuel + 1) page ce seen jobs events =
          scrapeJsonLoop t tpl pp pps ps net fuel (page + 1) (ce + 1)
            (processItems t (jsonBaseUrl (jsonPageUrl tpl pp pps (page * ps) ps)) items
              { seen := seen, page_jobs := [], dups := 0, newJobs := 0 }).seen
            (jobs ++ (processItems t (jsonBaseUrl (jsonPageUrl tpl pp pps (page * ps) ps))
              items { seen := seen, page_jobs := [], dups := 0, newJobs := 0 }).page_jobs)
            (events ++ [Event.netAttempt (jsonPageUrl tpl pp pps (page * ps) ps)])))) ∧
    (∀ (t tpl pp pps : String) (ps : Nat) (net : String → Option (Nat × Option JVal))
        (data : JVal) (items : List JVal) (fuel page ce : Nat) (seen : List String)
        (jobs : List JobData) (events : List Event),
      page < MAX_PAGES_PER_SITE →
      net (jsonPageUrl tpl pp pps (page * ps) ps) = some (200, some data) →
      pyIter (jobsListVal data) = some items →
      ¬(0 < items.length ∧
        5 * (processItems t (jsonBaseUrl (jsonPageUrl tpl pp pps (page * ps) ps)) items
            { seen := seen, page_jobs := [], dups := 0, newJobs := 0 }).dups >
          4 * items.length) →
      (processItems t (jsonBaseUrl (jsonPageUrl tpl pp pps (page * ps) ps)) items
          { seen := seen, page_jobs := [], dups := 0, newJobs := 0 }).newJobs ≠ 0 →
      scrapeJsonLoop t tpl pp pps ps net (fuel + 1) page ce seen jobs events =
        scrapeJsonLoop t tpl pp pps ps net fuel (page + 1) 0
          (processItems t (jsonBaseUrl (jsonPageUrl tpl pp pps (page * ps) ps)) items
            { seen := seen, page_jobs := [], dups := 0, newJobs := 0 }).seen
          (jobs ++ (processItems t (jsonBaseUrl (jsonPageUrl tpl pp pps (page * ps) ps))
            items { seen := seen, page_jobs := [], dups := 0, newJobs := 0 }).page_jobs)
          (events ++ [Event.netAttempt (jsonPageUrl tpl pp pps (page * ps) ps)])) ∧
    (∀ (t ep pp pps : String) (ps : Nat) (net : String → Option (List JobElem))
        (elems : List JobElem) (fuel page ce : Nat) (seen : List String)
        (jobs : List JobData) (events : List Event),
      page < MAX_PAGES_PER_SITE →
      net (htmlPageUrl ep pp pps (page * ps) ps) = some elems →
      elems.isEmpty = false →
      ¬(0 < elems.length ∧
        5 * (processListingItems ep t elems
            { seen := seen, page_jobs := [], dups := 0 }).dups > 4 * elems.length) →
      (processListingItems ep t elems
          { seen := seen, page_jobs := [], dups := 0 }).page_jobs.isEmpty = true →
      ((ce + 1 ≥ 2 →
        scrapeHtmlLoop t ep pp pps ps net (fuel + 1) page ce seen jobs events =
          (jobs, events ++ [Event.netAttempt (htmlPageUrl ep pp pps (page * ps) ps)])) ∧
       (ce + 1 < 2 →
        scrapeHtmlLoop t ep pp pps ps net (fuel + 1) page ce seen jobs events =
          scrapeHtmlLoop t ep pp pps ps net fuel (page + 1) (ce + 1)
            (processListingItems ep t elems
              { seen := seen, page_jobs := [], dups := 0 }).seen
            (jobs ++ (processListingItems ep t elems
              { seen := seen, page_jobs := [], dups := 0 }).page_jobs)
            (events ++ [Event.netAttempt (htmlPageUrl ep pp pps (page * ps) ps)])))) ∧
    (∀ (t ep pp pps : String) (ps : Nat) (net : String → Option (List JobElem))
        (elems : List JobElem) (fuel page ce : Nat) (seen : List String)
        (jobs : List JobData) (events : List Event),
      page < MAX_PAGES_PER_SITE →
      net (htmlPageUrl ep pp pps (page * ps) ps) = some elems →
      elems.isEmpty = false →
      ¬(0 < elems.length ∧
        5 * (processListingItems ep t elems
            { seen := seen, page_jobs := [], dups := 0 }).dups > 4 * elems.length) →
      (processListingItems ep t elems
          { seen := seen, page_jobs := [], dups := 0 }).page_jobs.isEmpty = false →
      scrapeHtmlLoop t ep pp pps ps net (fuel + 1) page ce seen jobs events =
        scrapeHtmlLoop t ep pp pps ps net fuel (page + 1) 0
          (processListingItems ep t elems
            { seen := seen, page_jobs := [], dups := 0 }).seen
          (jobs ++ (processListingItems ep t elems
            { seen := seen, page_jobs := [], dups := 0 }).page_jobs)
          (events ++ [Event.netAttempt (htmlPageUrl ep pp pps (page * ps) ps)])) ∧
    ((scrape_via_json_api "t" tpl_c6 "jobOffset" "jobRecords" 10 net_c7).1 =
        accPage0_c7.page_jobs ∧
      accPage0_c7.page_jobs.length = 5 ∧
      (scrape_via_json_api "t" tpl_c6 "jobOffset" "jobRecords" 10 net_c7).2.length = 3) := by
  refine ⟨?_, ?_, ?_, ?_, ⟨rfl, rfl, rfl⟩⟩
  · intro t tpl pp pps ps net data items fuel page ce seen jobs events
      hpage hnet hiter hflood hnew
    constructor
    · intro hce
      simp [scrapeJsonLoop, hpage, hnet, hiter, hflood, hnew, hce]
    · intro hce
      have hce2 : ¬(ce + 1 ≥ 2) := by omega
      simp [scrapeJsonLoop, hpage, hnet, hiter, hflood, hnew, hce2]
  · intro t tpl pp pps ps net data items fuel page ce seen jobs events
      hpage hnet hiter hflood hnew
    simp [scrapeJsonLoop, hpage, hnet, hiter, hflood, hnew]
  · intro t ep pp pps ps net elems fuel page ce seen jobs events
      hpage hnet helems hflood hpj
    constructor
    · intro hce
      simp [scrapeHtmlLoop, hpage, hnet, helems, hflood, hpj, hce]
    · intro hce
      have hce2 : ¬(ce + 1 ≥ 2) := by omega
      simp [scrapeHtmlLoop, hpage, hnet, helems, hflood, hpj, hce2]
  · intro t ep pp pps ps net elems fuel page ce seen jobs events
      hpage hnet helems hflood hpj
    simp [scrapeHtmlLoop, hpage, hnet, helems, hflood, hpj]

set_option maxRecDepth 8000 in
theorem emptiness_termination_witness :
    scrapeJsonLoop "t" tpl_c6 "jobOffset" "jobRecords" 10 net_c7 19 1 0
      accPage0_c7.seen accPage0_c7.page_jobs
      [Event.netAttempt (jsonPageUrl tpl_c6 "jobOffset" "jobRecords" 0 10)] =
      scrapeJsonLoop "t" tpl_c6 "jobOffset" "jobRecords" 10 net_c7 18 2 1
        (processItems "t"
          (jsonBaseUrl (jsonPageUrl tpl_c6 "jobOffset" "jobRecords" (1 * 10) 10)) []
          { seen := accPage0_c7.seen, page_jobs := [], dups := 0, newJobs := 0 }).seen
        (accPage0_c7.page_jobs ++ (processItems "t"
          (jsonBaseUrl (jsonPageUrl tpl_c6 "jobOffset" "jobRecords" (1 * 10) 10)) []
          { seen := accPage0_c7.seen, page_jobs := [], dups := 0,
            newJobs := 0 }).page_jobs)
        ([Event.netAttempt (jsonPageUrl tpl_c6 "jobOffset" "jobRecords" 0 10)] ++
          [Event.netAttempt (jsonPageUrl tpl_c6 "jobOffset" "jobRecords" (1 * 10) 10)]) :=
  (emptiness_termination.1 "t" tpl_c6 "jobOffset" "jobRecords" 10 net_c7
    (jobj [("jobs", jarr [])]) [] 18 1 0 accPage0_c7.seen accPage0_c7.page_jobs
    [Event.netAttempt (jsonPageUrl tpl_c6 "jobOffset" "jobRecords" 0 10)]
    (by decide) rfl rfl (by decide) rfl).2 (by decide)

theorem synthUrl_ne_empty (a b c : String) : (a ++ "/JobDetail/" ++ b ++ "/" ++ c) ≠ "" := by
  intro hcon
  have hd := congrArg String.data hcon
  simp [String.data_append] at hd

theorem parse_some_fields (f : List (String × JVal)) (tenant base : String) (rec : JobData)
    (h : parse_job_from_json (jobj f) tenant base = some rec) :
    jsonJobUrlStep f base = some rec.job_url ∧ truthy (titleChain f) = true := by
  simp only [parse_job_from_json] at h
  cases hu : jsonJobUrlStep f base with
  | none => rw [hu] at h; cases h
  | some jo =>
      rw [hu] at h
      dsimp only at h
      by_cases htit : truthy (titleChain f) = true
      · rw [if_pos htit] at h
        injection h with h2
        subst h2
        exact ⟨rfl, htit⟩
      · rw [if_neg htit] at h
        cases h

theorem jsonJobUrlStep_no_id (f : List (String × JVal)) (base : String)
    (hid : truthy (idChain f) = false) : jsonJobUrlStep f base = some none := by
  simp [jsonJobUrlStep, hid]

theorem jsonJobUrlStep_with_id (f : List (String × JVal)) (base : String)
    (jo : Option String) (s : String)
    (hid : truthy (idChain f) = true) (hts : titleChain f = jstr s)
    (htit : truthy (titleChain f) = true)
    (hstep : jsonJobUrlStep f base = some jo) :
    ∃ u, specJobUrlVal f base (slugify50 s) (pyStr (idChain f)) = jstr u ∧
      jo = some (if pyStartsWith u "http" then u else urljoin base u) := by
  rw [hts] at htit
  simp only [jsonJobUrlStep, hid, if_true, hts, htit, Option.some_bind] at hstep
  by_cases h1 : truthy (jGet f "url") = true
  · cases hv : jGet f "url" with
    | jstr u =>
        rw [hv] at h1
        simp only [List.find?, hv, h1] at hstep
        injection hstep with h2
        subst h2
        refine ⟨u, ?_, rfl⟩
        simp [specJobUrlVal, List.find?, hv, h1]
    | jnull => rw [hv] at h1; simp [truthy] at h1
    | jbool b =>
        rw [hv] at h1
        simp only [List.find?, hv, h1] at hstep
        cases hstep
    | jnum n =>
        rw [hv] at h1
        simp only [List.find?, hv, h1] at hstep
        cases hstep
    | jarr xs =>
        rw [hv] at h1
        simp only [List.find?, hv, h1] at hstep
        cases hstep
    | jobj fs =>
        rw [hv] at h1
        simp only [List.find?, hv, h1] at hstep
        cases hstep
  · have h1f : truthy (jGet f "url") = false := by
      cases hb : truthy (jGet f "url")
      · rfl
      · exact absurd hb h1
    by_cases h2 : truthy (jGet f "jobUrl") = true
    · cases hv : jGet f "jobUrl" with
      | jstr u =>
          rw [hv] at h2
          simp only [List.find?, hv, h1f, h2] at hstep
          injection hstep with hinj
          subst hinj
          refine ⟨u, ?_, rfl⟩
          simp [specJobUrlVal, List.find?, hv, h1f, h2]
      | jnull => rw [hv] at h2; simp [truthy] at h2
      | jbool b =>
          rw [hv] at h2
          simp only [List.find?, hv, h1f, h2] at hstep
          cases hstep
      | jnum n =>
          rw [hv] at h2
          simp only [List.find?, hv, h1f, h2] at hstep
          cases hstep
      | jarr xs =>
          rw [hv] at h2
          simp only [List.find?, hv, h1f, h2] at hstep
          cases hstep
      | jobj fs =>
          rw [hv] at h2
          simp only [List.find?, hv, h1f, h2] at hstep
          cases hstep
    · have h2f : truthy (jGet f "jobUrl") = false := by
        cases hb : truthy (jGet f "jobUrl")
        · rfl
        · exact absurd hb h2
      by_cases h3 : truthy (jGet f "applyUrl") = true
      · cases hv : jGet f "applyUrl" with
        | jstr u =>
            rw [hv] at h3
            simp only [List.find?, hv, h1f, h2f, h3] at hstep
            injection hstep with hinj
            subst hinj
            refine ⟨u, ?_, rfl⟩
            simp [specJobUrlVal, List.find?, hv, h1f, h2f, h3]
        | jnull => rw [hv] at h3; simp [truthy] at h3
        | jbool b =>
            rw [hv] at h3
            simp only [List.find?, hv, h1f, h2f, h3] at hstep
            cases hstep
        | jnum n =>
            rw [hv] at h3
            simp only [List.find?, hv, h1f, h2f, h3] at hstep
            cases hstep
        | jarr xs =>
            rw [hv] at h3
            simp only [List.find?, hv, h1f, h2f, h3] at hstep
            cases hstep
        | jobj fs =>
            rw [hv] at h3
            simp only [List.find?, hv, h1f, h2f, h3] at hstep
            cases hstep
      · have h3f : truthy (jGet f "applyUrl") = false := by
          cases hb : truthy (jGet f "applyUrl")
          · rfl
          · exact absurd hb h3
        have hsynth : truthy (jstr (base ++ "/JobDetail/" ++ slugify50 s ++ "/" ++
            pyStr (idChain f))) = true := by
          simp [truthy, synthUrl_ne_empty]
        simp only [List.find?, h1f, h2f, h3f, hsynth] at hstep
        injection hstep with hinj
        subst hinj
        refine ⟨base ++ "/JobDetail/" ++ slugify50 s ++ "/" ++ pyStr (idChain f), ?_, rfl⟩
        simp [specJobUrlVal, List.find?, h1f, h2f, h3f]

/-- C9 (amended): in the JSON normalization path, for every raw job object
carrying a truthy identifier that yields a record, the job URL is the first
truthy value among the alias fields `url`, `jobUrl`, `applyUrl` in order
(kept as-is when it starts with `http`, else resolved against the base URL),
and when no alias is truthy it is synthesized from the base URL, the
slugified title and the identifier (`specJobUrlVal`); a record produced from
an object with no truthy identifier carries no URL at all, even when alias
fields are present. -/
theorem url_resolution (f : List (String × JVal)) (tenant base : String) (rec : JobData)
    (h : parse_job_from_json (jobj f) tenant base = some rec) :
    (truthy (idChain f) = false → rec.job_url = none) ∧
    (truthy (idChain f) = true →
      ∃ s, titleChain f = jstr s ∧
        ∃ u, specJobUrlVal f base (slugify50 s) (pyStr (idChain f)) = jstr u ∧
          rec.job_url = some (if pyStartsWith u "http" then u else urljoin base u)) := by
  obtain ⟨hstep, htit⟩ := parse_some_fields f tenant base rec h
  constructor
  · intro hid
    have hno := jsonJobUrlStep_no_id f base hid
    have h2 := hno.symm.trans hstep
    injection h2 with h3
    exact h3.symm
  · intro hid
    cases ht : titleChain f with
    | jstr s => exact ⟨s, rfl, jsonJobUrlStep_with_id f base rec.job_url s hid ht htit hstep⟩
    | jnull => rw [ht] at htit; simp [truthy] at htit
    | jbool b =>
        exfalso
        rw [ht] at htit
        simp only [jsonJobUrlStep, hid, if_true, ht, htit, Option.none_bind] at hstep
        cases hstep
    | jnum n =>
        exfalso
        rw [ht] at htit
        simp only [jsonJobUrlStep, hid, if_true, ht, htit, Option.none_bind] at hstep
        cases hstep
    | jarr xs =>
        exfalso
        rw [ht] at htit
        simp only [jsonJobUrlStep, hid, if_true, ht, htit, Option.none_bind] at hstep
        cases hstep
    | jobj fs =>
        exfalso
        rw [ht] at htit
        simp only [jsonJobUrlStep, hid, if_true, ht, htit, Option.none_bind] at hstep
        cases hstep

theorem url_resolution_witness :
    ∃ s, titleChain fields_c9w = jstr s ∧
      ∃ u, specJobUrlVal fields_c9w "https://b" (slugify50 s) (pyStr (idChain fields_c9w)) =
          jstr u ∧
        rec_c9w.job_url = some (if pyStartsWith u "http" then u else urljoin "https://b" u) :=
  (url_resolution fields_c9w "t" "https://b" rec_c9w rfl).2 rfl

/-- C9 counterexample: a raw job object with a present (truthy) `url` alias
but no identifier yields a record whose job URL is `None` — the alias is
never consulted — so "for every raw job object that yields a record, the job
URL is resolved by trying the alias fields and taking the first present
value" fails on the code. -/
theorem url_resolution_counterexample :
    jGet fields_c9 "url" = jstr "http://x/y" ∧
    truthy (jGet fields_c9 "url") = true ∧
    (parse_job_from_json (jobj fields_c9) "t" "https://b").map (fun r => r.job_url) =
      some none :=
  ⟨rfl, rfl, rfl⟩

/-- C10: in the HTML listing path, a record's `job_id` is derived solely
from its resolved job URL; `extract_job_id_from_url` returns the capture of
the first matching pattern among, in order, a slash followed by four or more
digits, `jobId=<digits>`, `id=<digits>`, and `None` when none matches; an
element without an anchor produces no record; and a record with `job_id`
`None` is always appended as new by the duplicate check (the seen set is
neither consulted nor changed). -/
theorem html_job_id_from_url :
    (∀ (elem : JobElem) (base tenant : String) (rec : JobData),
      parse_job_from_listing elem base tenant = some rec →
      ∃ u, rec.job_url = some u ∧ rec.job_id = extract_job_id_from_url u) ∧
    (∀ (elem : JobElem) (base tenant : String),
      elem.anchor = none → parse_job_from_listing elem base tenant = none) ∧
    (∀ url : String,
      (∀ d, scanFirst matchSlashDigits4 url.data = some d →
        extract_job_id_from_url url = some d) ∧
      (scanFirst matchSlashDigits4 url.data = none →
        ∀ d, scanFirst (matchKeyDigits "jobId=".data) url.data = some d →
          extract_job_id_from_url url = some d) ∧
      (scanFirst matchSlashDigits4 url.data = none →
        scanFirst (matchKeyDigits "jobId=".data) url.data = none →
        ∀ d, scanFirst (matchKeyDigits "id=".data) url.data = some d →
          extract_job_id_from_url url = some d) ∧
      (scanFirst matchSlashDigits4 url.data = none →
        scanFirst (matchKeyDigits "jobId=".data) url.data = none →
        scanFirst (matchKeyDigits "id=".data) url.data = none →
        extract_job_id_from_url url = none)) ∧
    (∀ (endpoint tenant : String) (acc : ListingAcc) (elem : JobElem) (rec : JobData),
      parse_job_from_listing elem endpoint tenant = some rec → rec.job_id = none →
      processListingItem endpoint tenant acc elem =
        { acc with page_jobs := acc.page_jobs ++ [rec] }) := by
  refine ⟨?_, ?_, ?_, ?_⟩
  · intro elem base tenant rec h
    simp only [parse_job_from_listing] at h
    cases ha : elem.anchor with
    | none => rw [ha] at h; simp [truthy] at h
    | some p =>
        obtain ⟨txt, href⟩ := p
        rw [ha] at h
        dsimp only at h
        by_cases htt : truthy (jstr (clean_text txt)) = true
        · rw [if_pos htt] at h
          injection h with h2
          subst h2
          exact ⟨urljoin base href, rfl, rfl⟩
        · rw [if_neg htt] at h
          cases h
  · intro elem base tenant ha
    simp [parse_job_from_listing, ha, truthy]
  · intro url
    by_cases hu : url = ""
    · subst hu
      refine ⟨?_, ?_, ?_, ?_⟩
      · intro d hd; simp [scanFirst] at hd
      · intro _ d hd; simp [scanFirst] at hd
      · intro _ _ d hd; simp [scanFirst] at hd
      · intro _ _ _; rfl
    · refine ⟨?_, ?_, ?_, ?_⟩
      · intro d hd; simp [extract_job_id_from_url, hu, hd]
      · intro h1 d hd; simp [extract_job_id_from_url, hu, h1, hd]
      · intro h1 h2 d hd; simp [extract_job_id_from_url, hu, h1, h2, hd]
      · intro h1 h2 h3; simp [extract_job_id_from_url, hu, h1, h2, h3]
  · intro endpoint tenant acc elem rec h hid
    exact processListingItem_id_none endpoint tenant acc elem rec h hid

theorem html_job_id_from_url_witness :
    ∃ u, rec_c10.job_url = some u ∧ rec_c10.job_id = extract_job_id_from_url u :=
  html_job_id_from_url.1 elem_c10 "https://h" "t" rec_c10 rfl

end Scraper
